import Mathlib

set_option maxRecDepth 100000

/-!
Verification of the xmsconan build-automation helpers.

This file gives a shallow embedding, in Lean, of the Python code of the
repository (profile parser, boolean-option normalizer, configuration-matrix
generator, profile writer, cmake-option derivation, template renderer), and
proves properties of the embedded definitions.

Modelling conventions:
  * Python strings are `String`; `str.strip`, `str.lower`, `str.split('=', 1)`
    are re-implemented character by character (`pyStrip`, `pyLower`,
    `splitFirstEq`) following CPython's behaviour on ASCII input.
  * Python dicts that are only ever read through `get`/`in`/iteration are
    modelled as association lists in insertion order; a dict *store*
    `d[k] = v` and `d.update(other)` append to the list, and `dlookup`
    returns the value of the last matching entry, which is extensionally the
    Python dict behaviour.
  * The filesystem is a value of type `FileSystem`: a current working
    directory, a list of files (absolute, normalized path paired with the
    list of the file's lines) and a list of directories.  `os.path` helpers
    (`abspath`, `join`, `dirname`, `isabs`) are embedded for POSIX paths that
    are already normalized (no `.`/`..` segments), which is the domain the
    repository uses.
  * `os.getenv` is a function `String → Option String`.
-/

/-- Whitespace characters stripped by Python's `str.strip()`. -/
def pyIsSpace (c : Char) : Bool :=
  c = ' ' || c = '\t' || c = '\n' || c = '\r' || c = '\x0b' || c = '\x0c'

/-- ASCII lower-casing of one character, as Python's `str.lower()` does on ASCII. -/
def pyLowerChar (c : Char) : Char :=
  if 'A' ≤ c ∧ c ≤ 'Z' then Char.ofNat (c.toNat + 32) else c

/-- Python's `str.lower()` (ASCII fragment). -/
def pyLower (s : String) : String :=
  ⟨s.data.map pyLowerChar⟩

/-- Remove leading whitespace from a character list. -/
def trimLeftL (l : List Char) : List Char :=
  l.dropWhile pyIsSpace

/-- Python's `str.strip()` on a character list. -/
def pyTrimL (l : List Char) : List Char :=
  ((trimLeftL (trimLeftL l).reverse)).reverse

/-- Python's `str.strip()`. -/
def pyStrip (s : String) : String :=
  ⟨pyTrimL s.data⟩

/-- Python's `line.split('=', 1)`: split at the first `'='`; `none` when the
line contains no `'='` (Python returns a one-element list there, and the
caller's tuple unpacking is only reached when `'=' in line`). -/
def splitFirstEq : List Char → Option (List Char × List Char)
  | [] => none
  | c :: rest =>
    if c = '=' then some ([], rest)
    else (splitFirstEq rest).map (fun p => (c :: p.1, p.2))

/-- Value of an ASCII digit. -/
def pyDigit (c : Char) : Option Nat :=
  if '0' ≤ c ∧ c ≤ '9' then some (c.toNat - 48) else none

/-- Accumulator loop for `pyParseNat`. -/
def parseNatAux : List Char → Nat → Option Nat
  | [], acc => some acc
  | c :: rest, acc =>
    match pyDigit c with
    | none => none
    | some d => parseNatAux rest (acc * 10 + d)

/-- Python's `int(s)` restricted to non-empty strings of decimal digits (the
only shape the configuration tables contain; on other input Python raises,
which is outside the verified domain and modelled as `none`). -/
def pyParseNat (s : String) : Option Nat :=
  match s.data with
  | [] => none
  | l => parseNatAux l 0

/-- Lookup in an insertion-ordered association list where a later entry
shadows an earlier one with the same key (Python `dict` access). -/
def dlookup : List (String × String) → String → Option String
  | [], _ => none
  | (k', v) :: rest, k =>
    match dlookup rest k with
    | some r => some r
    | none => if k' = k then some v else none

/-- Embedding of `_parse_bool_option` from `build_tools/build_library.py`:
`None` gives `'False'`; otherwise the stripped, lower-cased value is compared
with `{'true','1','yes','on'}`, extended with `'builtin'` when
`allow_string_aliases` is set. -/
def parseBoolOption (value : Option String) (allowStringAliases : Bool) : String :=
  match value with
  | none => "False"
  | some v =>
    let normalized := pyLower (pyStrip v)
    let trueValues := ["true", "1", "yes", "on"] ++ (if allowStringAliases then ["builtin"] else [])
    if trueValues.contains normalized then "True" else "False"

/-- The filesystem as the embedded code observes it: a working directory, the
text files (absolute normalized path, list of lines) and the directories. -/
structure FileSystem where
  cwd : String
  files : List (String × List String)
  dirs : List String

/-- Contents of a file (`open(path).readlines()` up to line splitting). -/
def lookupFile (fs : FileSystem) (p : String) : Option (List String) :=
  fs.files.lookup p

/-- Embedding of `os.path.isfile`. -/
def isFile (fs : FileSystem) (p : String) : Bool :=
  (lookupFile fs p).isSome

/-- Embedding of `os.path.isdir`. -/
def isDir (fs : FileSystem) (p : String) : Bool :=
  fs.dirs.contains p

/-- Embedding of `os.path.isabs` for POSIX paths. -/
def isAbsPath (p : String) : Bool :=
  p.data.head? == some '/'

/-- Embedding of `os.path.join` for POSIX paths (two arguments). -/
def joinPath (a b : String) : String :=
  if isAbsPath b then b
  else if a = "" || a.data.getLast? == some '/' then a ++ b
  else a ++ "/" ++ b

/-- Embedding of `os.path.abspath` for already-normalized paths: an absolute
path is returned unchanged, a relative one is joined onto the working
directory. -/
def absPathFS (fs : FileSystem) (p : String) : String :=
  if isAbsPath p then p else joinPath fs.cwd p

/-- Embedding of `os.path.dirname` for POSIX paths: the part up to the last
`'/'`, with trailing slashes stripped unless the result is all slashes. -/
def dirNameFS (p : String) : String :=
  let cs := p.data
  match cs.reverse.findIdx? (fun c => c == '/') with
  | none => ""
  | some i =>
    let head := cs.take (cs.length - i)
    if head.all (fun c => c == '/') then ⟨head⟩
    else ⟨(head.reverse.dropWhile (fun c => c == '/')).reverse⟩

/-- Test for the `include(...)` directive of `_parse_profile_options`:
`line.lower().startswith('include(') and line.endswith(')')`. -/
def isIncludeLine (line : String) : Bool :=
  "include(".data.isPrefixOf (pyLower line).data && ")".data.isSuffixOf line.data

/-- The include target `line[len('include('):-1].strip()`. -/
def includeTarget (line : String) : String :=
  pyStrip ⟨(line.data.drop 8).dropLast⟩

/-- Test for a section header: `line.startswith('[') and line.endswith(']')`. -/
def isSectionLine (line : String) : Bool :=
  line.data.head? == some '[' && line.data.getLast? == some ']'

/-- The section name `line[1:-1].strip().lower()`. -/
def sectionName (line : String) : String :=
  pyLower (pyStrip ⟨(line.data.drop 1).dropLast⟩)

/-- Strip a leading `&:` root-scope marker from an option key. -/
def stripScopeMarker (k : String) : String :=
  if "&:".data.isPrefixOf k.data then ⟨k.data.drop 2⟩ else k

/-- A key that is still package- or profile-scoped after marker stripping:
`'/' in key or ':' in key`. -/
def isScopedKey (k : String) : Bool :=
  k.data.contains '/' || k.data.contains ':'

/-- Resolution of an include target:
`include_target if os.path.isabs(include_target) else os.path.join(profile_dir, include_target)`. -/
def includePathResolve (dir tgt : String) : String :=
  if isAbsPath tgt then tgt else joinPath dir tgt

/-- The loop state of `_parse_profile_options`: the current section name, the
accumulated options dict, and the (mutable, shared) visited set. -/
structure ParseState where
  currentSection : Option String
  options : List (String × String)
  visited : List String

/-- One iteration of the line loop of `_parse_profile_options`.  `recur` is
the recursive call used by the `include(...)` branch; it returns the included
file's options together with the updated visited set (Python mutates one
shared `set`, which is modelled by threading it through). -/
def parseLineStep (recur : String → List String → (List (String × String) × List String))
    (dir : String) (st : ParseState) (rawLine : String) : ParseState :=
  let line := pyStrip rawLine
  if line.data.isEmpty || line.data.head? == some '#' then st
  else if isIncludeLine line then
    let includePath := includePathResolve dir (includeTarget line)
    let res := recur includePath st.visited
    { st with options := st.options ++ res.1, visited := res.2 }
  else if isSectionLine line then
    { st with currentSection := some (sectionName line) }
  else if st.currentSection != some "options" then st
  else
    match splitFirstEq line.data with
    | none => st
    | some (k, v) =>
      let key := stripScopeMarker (pyStrip ⟨k⟩)
      let value := pyStrip ⟨v⟩
      if isScopedKey key then st
      else { st with options := st.options ++ [(key, value)] }

/-- Fuelled embedding of `_parse_profile_options` from
`build_tools/build_library.py`.  The fuel only bounds the include-recursion
depth; `parseProfile` below instantiates it with a bound that is always
sufficient (shown by `parseProfile_unfold`), so the zero-fuel clause is dead
code on every reachable call. -/
def parseProfileF (fs : FileSystem) : Nat → String → List String → (List (String × String) × List String)
  | 0, _, visited => ([], visited)
  | fuel + 1, path, visited =>
    let absProfile := absPathFS fs path
    if visited.contains absProfile || !(isFile fs absProfile) then ([], visited)
    else
      let lines := (lookupFile fs absProfile).getD []
      let st := lines.foldl (parseLineStep (parseProfileF fs fuel) (dirNameFS absProfile))
        ⟨none, [], absProfile :: visited⟩
      (st.options, st.visited)

/-- `_parse_profile_options(path, visited)` with always-sufficient fuel. -/
def parseProfile (fs : FileSystem) (path : String) (visited : List String) :
    List (String × String) × List String :=
  parseProfileF fs (fs.files.length + 1) path visited

/-- `_parse_profile_options(path)` with the default empty visited set,
projected to the returned options dict. -/
def parseProfileOptionsMap (fs : FileSystem) (path : String) : List (String × String) :=
  (parseProfile fs path []).1

/-- The per-line processing of one file in isolation: identical to
`parseLineStep` except that an `include(...)` line contributes nothing.  This
is the code path taken when an include hits the visited set or a missing
file; it is used to *state* what a single file's own option assignments are. -/
def pureLineStep (s : Option String × List (String × String)) (rawLine : String) :
    Option String × List (String × String) :=
  let line := pyStrip rawLine
  if line.data.isEmpty || line.data.head? == some '#' then s
  else if isIncludeLine line then s
  else if isSectionLine line then (some (sectionName line), s.2)
  else if s.1 != some "options" then s
  else
    match splitFirstEq line.data with
    | none => s
    | some (k, v) =>
      let key := stripScopeMarker (pyStrip ⟨k⟩)
      let value := pyStrip ⟨v⟩
      if isScopedKey key then s
      else (s.1, s.2 ++ [(key, value)])

/-- Fold of `pureLineStep` over a file's lines. -/
def pureProcess (lines : List String) (s : Option String × List (String × String)) :
    Option String × List (String × String) :=
  lines.foldl pureLineStep s

/-- The file paths present in the filesystem. -/
def fsPaths (fs : FileSystem) : List String :=
  fs.files.map Prod.fst

/-- Number of file paths not yet in the visited set; the include recursion
strictly decreases it. -/
def unvisitedCount (fs : FileSystem) (visited : List String) : Nat :=
  ((fsPaths fs).filter (fun p => !(visited.contains p))).length

/-- One build configuration as produced by `generate_configurations`: the
axis assignment (`combination` minus the `'options'`/`'buildenv'` keys), the
three members of the options dict, and the buildenv dict. -/
structure BuildConfig where
  settings : List (String × String)
  wchar_t : String
  pybind : Bool
  testing : Bool
  buildenv : List (String × Option String)
deriving DecidableEq

/-- Access `combination[k]` for an axis key (missing keys, a `KeyError` in
Python, give `none`). -/
def settingsValue (c : BuildConfig) (k : String) : Option String :=
  c.settings.lookup k

/-- Embedding of `itertools.product(*values)`: all tuples in axis order, the
rightmost axis varying fastest. -/
def cartesianProduct : List (List String) → List (List String)
  | [] => [[]]
  | vs :: rest => vs.flatMap (fun v => (cartesianProduct rest).map (fun combo => v :: combo))

/-- Embedding of
`[dict(zip(keys, combination)) for combination in itertools.product(*values)]`. -/
def baseCombinations (axes : List (String × List String)) : List (List (String × String)) :=
  (cartesianProduct (axes.map Prod.snd)).map (fun combo => (axes.map Prod.fst).zip combo)

/-- The `combination['buildenv']` dict built by `generate_configurations`
(packager.py lines 93-118): environment lookups with their defaults, and the
`CI_COMMIT_TAG` override of `RELEASE_PYTHON`. -/
def mkBuildenv (env : String → Option String) : List (String × Option String) :=
  let ciCommitTag := (env "CI_COMMIT_TAG").getD "False"
  let releasePython := if ciCommitTag ≠ "False" then "True" else (env "RELEASE_PYTHON").getD "False"
  [("XMS_VERSION", env "XMS_VERSION"),
   ("PYTHON_TARGET_VERSION", some ((env "PYTHON_TARGET_VERSION").getD "3.12")),
   ("CI_COMMIT_TAG", some ciCommitTag),
   ("RELEASE_PYTHON", some releasePython),
   ("AQUAPI_USERNAME", env "AQUAPI_USERNAME"),
   ("AQUAPI_PASSWORD", env "AQUAPI_PASSWORD"),
   ("AQUAPI_URL", env "AQUAPI_URL")]

/-- A base combination after the first loop of `generate_configurations`:
`combination['options'] = {'wchar_t': 'builtin', 'pybind': False, 'testing': False}`
and `combination['buildenv'] = {...}`. -/
def mkBaseConfig (env : String → Option String) (s : List (String × String)) : BuildConfig :=
  { settings := s, wchar_t := "builtin", pybind := false, testing := false,
    buildenv := mkBuildenv env }

/-- The base configuration list (Cartesian product with default options). -/
def baseConfigs (axes : List (String × List String)) (env : String → Option String) :
    List BuildConfig :=
  (baseCombinations axes).map (mkBaseConfig env)

/-- The pybind-overlay guard of `generate_configurations` (identical text in
`package_tools/packager.py` lines 131-134 and `conan2_helpers.py` lines
87-90): `combination['build_type'] != 'Debug' and (combination['compiler'] !=
'Visual Studio' or combination['compiler.runtime'] in ['MD', 'MDd'])`, then
`continue` when `combination['compiler'] == 'Visual Studio' and
int(combination['compiler.version']) <= 12`.  Note that the compiler literal
is `'Visual Studio'` in both files, even though packager.py's own axis table
names the compiler `'msvc'`. -/
def pybindEligible (c : BuildConfig) : Bool :=
  (settingsValue c "build_type" != some "Debug")
    && ((settingsValue c "compiler" != some "Visual Studio")
        || (settingsValue c "compiler.runtime" == some "MD"
            || settingsValue c "compiler.runtime" == some "MDd"))
    && !((settingsValue c "compiler" == some "Visual Studio")
        && (match (settingsValue c "compiler.version").bind pyParseNat with
            | some n => n ≤ 12
            | none => false))

/-- Embedding of `XmsConanPackager.generate_configurations`
(`package_tools/packager.py` lines 88-152) for one axis table: the base
Cartesian product, the wide-char overlay (compiler equals `'msvc'`), the
pybind overlay, the testing overlay, concatenated in that order. -/
def packagerGenerateConfigurations (axes : List (String × List String))
    (env : String → Option String) : List BuildConfig :=
  let combinations := baseConfigs axes env
  let wcharBuilds := (combinations.filter (fun c => settingsValue c "compiler" == some "msvc")).map
    (fun c => { c with wchar_t := "typedef" })
  let pybindBuilds := (combinations.filter pybindEligible).map (fun c => { c with pybind := true })
  let testingBuilds := combinations.map (fun c => { c with testing := true })
  combinations ++ wcharBuilds ++ pybindBuilds ++ testingBuilds

/-- Embedding of the module-level `generate_configurations` of
`conan2_helpers.py` (lines 35-107) for one axis table; it differs from the
packager method only in the wide-char overlay guard, which compares against
`'Visual Studio'` (that file's axis tables name the compiler so). -/
def conan2GenerateConfigurations (axes : List (String × List String))
    (env : String → Option String) : List BuildConfig :=
  let combinations := baseConfigs axes env
  let wcharBuilds := (combinations.filter (fun c => settingsValue c "compiler" == some "Visual Studio")).map
    (fun c => { c with wchar_t := "typedef" })
  let pybindBuilds := (combinations.filter pybindEligible).map (fun c => { c with pybind := true })
  let testingBuilds := combinations.map (fun c => { c with testing := true })
  combinations ++ wcharBuilds ++ pybindBuilds ++ testingBuilds

/-- The module-level `configurations` table of `package_tools/packager.py`
(lines 11-38), in source order. -/
def packagerConfigurations : List (String × List (String × List String)) :=
  [("windows",
    [("os", ["Windows"]),
     ("build_type", ["Release", "Debug"]),
     ("arch", ["x86_64"]),
     ("compiler", ["msvc"]),
     ("compiler.cppstd", ["17"]),
     ("compiler.version", ["192"]),
     ("compiler.runtime", ["dynamic", "static"])]),
   ("linux",
    [("os", ["Linux"]),
     ("cppstd", ["17"]),
     ("build_type", ["Release", "Debug"]),
     ("arch", ["x86_64"]),
     ("compiler", ["gcc"]),
     ("compiler.version", ["12"])]),
   ("darwin",
    [("os", ["Macos"]),
     ("build_type", ["Release", "Debug"]),
     ("arch", ["armv8"]),
     ("compiler", ["apple-clang"]),
     ("compiler.version", ["16"]),
     ("compiler.cppstd", ["gnu17"]),
     ("compiler.libcxx", ["libc++"])])]

/-- `XmsConanPackager.generate_configurations(system_platform)`: look the
platform family up in the module table and expand it (an unknown family is an
error in Python — `None.keys()` — modelled as `none`). -/
def packagerGenerate (systemPlatform : String) (env : String → Option String) :
    Option (List BuildConfig) :=
  (packagerConfigurations.lookup systemPlatform).map
    (fun axes => packagerGenerateConfigurations axes env)

/-- The windows axis table of `package_tools/packager.py`. -/
def windowsAxes : List (String × List String) :=
  [("os", ["Windows"]),
   ("build_type", ["Release", "Debug"]),
   ("arch", ["x86_64"]),
   ("compiler", ["msvc"]),
   ("compiler.cppstd", ["17"]),
   ("compiler.version", ["192"]),
   ("compiler.runtime", ["dynamic", "static"])]

/-- An empty process environment (every `os.getenv` returns `None`). -/
def env0 : String → Option String := fun _ => none

/-- Modelled from the spec: the binding-overlay predicate as the claim states
it — "build_type is not debug AND (the compiler is not the MSVC-family
compiler OR its runtime is one of the dynamic-runtime variants) AND NOT (the
compiler is MSVC-family AND its compiler-version is at most 12)" — read over
packager.py's own axis table, where the MSVC-family compiler is named
`'msvc'` and the dynamic runtime variant is `'dynamic'`. -/
def specBindingEligible (c : BuildConfig) : Bool :=
  (settingsValue c "build_type" != some "Debug")
    && ((settingsValue c "compiler" != some "msvc")
        || (settingsValue c "compiler.runtime" == some "dynamic"))
    && !((settingsValue c "compiler" == some "msvc")
        && (match (settingsValue c "compiler.version").bind pyParseNat with
            | some n => n ≤ 12
            | none => false))

/-- The Release/static-runtime base configuration of the windows table under
the empty environment; its binding overlay is the counterexample
configuration for the binding-overlay claim. -/
def cexBaseConfig : BuildConfig :=
  { settings :=
      [("os", "Windows"), ("build_type", "Release"), ("arch", "x86_64"),
       ("compiler", "msvc"), ("compiler.cppstd", "17"),
       ("compiler.version", "192"), ("compiler.runtime", "static")],
    wchar_t := "builtin", pybind := false, testing := false,
    buildenv := mkBuildenv env0 }

/-- Python `str()` of a bool, as an f-string renders `True`/`False`. -/
def pyBoolStr (b : Bool) : String :=
  if b then "True" else "False"

/-- Rendering of a buildenv value in `f'{k}={v}'`: `None` prints as
`"None"`. -/
def renderEnvValue : Option String → String
  | none => "None"
  | some s => s

/-- Embedding of `XmsConanPackager.create_build_profile` (packager.py lines
196-220) as the list of lines it writes: a `[settings]` section with every
configuration key except `options`/`buildenv`, an `[options]` section whose
keys carry the `&:` root-scope marker, and a `[buildenv]` section.  The blank
strings are the empty lines the `'\n[options]\n'` / `'\n[buildenv]\n'` writes
produce. -/
def createBuildProfileLines (c : BuildConfig) : List String :=
  ["[settings]"] ++ c.settings.map (fun kv => kv.1 ++ "=" ++ kv.2)
    ++ ["", "[options]"]
    ++ ["&:wchar_t=" ++ c.wchar_t, "&:pybind=" ++ pyBoolStr c.pybind,
        "&:testing=" ++ pyBoolStr c.testing]
    ++ ["", "[buildenv]"]
    ++ c.buildenv.map (fun kv => kv.1 ++ "=" ++ renderEnvValue kv.2)

/-- A filesystem holding exactly one file. -/
def mkProfileFs (path : String) (lines : List String) : FileSystem :=
  { cwd := "/", files := [(path, lines)], dirs := [] }

/-- The CLI arguments `get_cmake_options` reads (`argparse.Namespace`);
optional string arguments are `Option String` (`None` when absent). -/
structure BuildArgs where
  profile : String
  cmake_dir : String
  build_dir : String
  python_version : Option String
  xms_version : Option String
  test_files : Option String
  allow_missing_test_files : Bool

/-- Python truthiness defaulting for an optional string argument:
`x if x else d` (both `None` and `''` fall back to the default). -/
def pyTruthyGetD (o : Option String) (d : String) : String :=
  match o with
  | none => d
  | some s => if s = "" then d else s

/-- Embedding of `get_cmake_options` from `build_tools/build_library.py`
(lines 281-373): parse the profile, normalize the three option flags, choose
the build type from the `_d` profile-name convention, then build the cmake
option list.  The `RuntimeError` for a missing test-files path is the
`Except.error` case.  Logging is dropped. -/
def getCmakeOptions (fs : FileSystem) (args : BuildArgs) : Except String (List String) :=
  let profileOptions := parseProfileOptionsMap fs args.profile
  let testing := parseBoolOption (some ((dlookup profileOptions "testing").getD "False")) true
  let pybind := parseBoolOption (some ((dlookup profileOptions "pybind").getD "False")) true
  let wchar := parseBoolOption (some ((dlookup profileOptions "wchar_t").getD "False")) false
  let buildType := if "_d".data.isSuffixOf (pyLower args.profile).data then "Debug" else "Release"
  let baseOptions :=
    ["-DBUILD_TESTING=" ++ testing,
     "-DIS_PYTHON_BUILD=" ++ pybind,
     "-DXMS_BUILD=" ++ wchar,
     "-DCMAKE_INSTALL_PREFIX=" ++ joinPath args.build_dir "install",
     "-DCMAKE_BUILD_TYPE=" ++ buildType]
  let branch : Except String (List String) :=
    if pybind ≠ "False" then
      Except.ok ["-DPYTHON_TARGET_VERSION=" ++ pyTruthyGetD args.python_version "3.13"]
    else if testing ≠ "False" then
      let testFiles := pyTruthyGetD args.test_files "./test_files"
      let hasTestFiles := !(testFiles == "NONE" || testFiles == "")
      if !(isDir fs testFiles) && hasTestFiles then
        if !args.allow_missing_test_files then
          Except.error ("Test files path does not exist: " ++ testFiles)
        else Except.ok []
      else if hasTestFiles then
        Except.ok ["-DXMS_TEST_PATH=" ++ absPathFS fs testFiles]
      else Except.ok []
    else Except.ok []
  match branch with
  | Except.error e => Except.error e
  | Except.ok extra =>
    let libVersion := pyTruthyGetD args.xms_version "99.99.99"
    let buildDir := if args.build_dir = "" then "build" else args.build_dir
    Except.ok (baseOptions ++ extra
      ++ ["-DXMS_VERSION=" ++ libVersion,
          "-DCMAKE_TOOLCHAIN_FILE=" ++ (buildDir ++ "/build/generators/conan_toolchain.cmake")])

/-- Embedding of `pathlib.PurePath.stem`: `name[:i]` when
`i = name.rfind('.')` satisfies `0 < i < len(name) - 1`, else `name`. -/
def pathStem (name : String) : String :=
  let cs := name.data
  match cs.reverse.findIdx? (fun c => c == '.') with
  | none => name
  | some i =>
    let j := cs.length - 1 - i
    if 0 < j ∧ j < cs.length - 1 then ⟨cs.take j⟩ else name

/-- Left-to-right non-overlapping replacement of `"\r\n"` by `"\n"`
(Python's `content.replace("\r\n", "\n")`). -/
def dropCRLF : List Char → List Char
  | [] => []
  | '\r' :: '\n' :: rest => '\n' :: dropCRLF rest
  | c :: rest => c :: dropCRLF rest

/-- Embedding of `_write_text_lf` from
`generator_tools/build_file_generator.py`: the content actually written,
with CRLF normalized to LF. -/
def writeTextLf (content : String) : String :=
  ⟨dropCRLF content.data⟩

/-- Embedding of `render_template_with_toml` from
`generator_tools/build_file_generator.py` (lines 28-92).  External pieces are
abstracted: TOML parsing is the already-parsed `tomlData` dict, the Jinja
environment is the `render` function, the two `Path.exists` checks are the
two boolean parameters, and the sorted `*.jinja` glob is the `templateFiles`
list of (file name, file content).  The returned list holds the (output file
name, written content) pairs the function writes — note the source function
has no dry-run parameter of any kind, so the writes are unconditional. -/
def renderTemplateWithToml (tomlExists templateDirExists : Bool)
    (render : List (String × String) → String → String)
    (tomlData : List (String × String)) (version : String)
    (templateFiles : List (String × String)) : Except String (List (String × String)) :=
  if !tomlExists then Except.error "The specified TOML file does not exist"
  else if !templateDirExists then Except.error "The specified template directory does not exist"
  else
    let data := tomlData ++ [("version", version)]
    let data := if (dlookup data "testing_framework").isSome then data
      else data ++ [("testing_framework", "cxxtest")]
    if templateFiles.isEmpty then
      Except.error "No template files (with .jinja extension) were found"
    else
      Except.ok (templateFiles.map (fun tf => (pathStem tf.1, writeTextLf (render data tf.2))))

/-- A line that is inert for the parser: neither an `include(...)` directive
nor a `[section]` header (after stripping).  Under a section other than
`options` such a line never changes the parse state. -/
def inertLine (l : String) : Bool :=
  !isIncludeLine (pyStrip l) && !isSectionLine (pyStrip l)

/-- Two-profile fixture mirroring the repository's own
`test_parse_profile_options_with_includes`: a release profile including a
base profile and overriding `pybind`. -/
def fsInclude : FileSystem :=
  { cwd := "/r",
    files :=
      [("/r/release_profile", ["include(base_profile)", "[options]", "&:pybind=False"]),
       ("/r/base_profile",
        ["[options]", "&:pybind=True", "testing=True", "wchar_t=builtin",
         "xmscore/*:*testing=False"])],
    dirs := [] }

/-- Mutually-including profile fixture mirroring the repository's own
`test_parse_profile_options_with_cyclic_includes`. -/
def fsCyclic : FileSystem :=
  { cwd := "/r",
    files :=
      [("/r/profile_a", ["include(profile_b)", "[options]", "testing=True"]),
       ("/r/profile_b", ["include(profile_a)", "[options]", "&:pybind=True"])],
    dirs := [] }

/-- Filesystem for exercising `get_cmake_options`: one profile enabling both
pybind and testing, one enabling only testing, and an existing test-files
directory. -/
def fsCmake : FileSystem :=
  { cwd := "/w",
    files :=
      [("/w/p", ["[options]", "&:pybind=True", "testing=True"]),
       ("/w/q", ["[options]", "testing=True"])],
    dirs := ["/w/tf"] }

/-- Arguments for the `get_cmake_options` counterexample: the profile enables
both pybind and testing, and the test-files directory exists. -/
def cexCmakeArgs : BuildArgs :=
  { profile := "/w/p", cmake_dir := ".", build_dir := "/w/b",
    python_version := none, xms_version := none,
    test_files := some "/w/tf", allow_missing_test_files := false }

/-- Arguments whose profile enables only testing. -/
def testingOnlyArgs : BuildArgs :=
  { profile := "/w/q", cmake_dir := ".", build_dir := "/w/b",
    python_version := none, xms_version := none,
    test_files := some "/w/tf", allow_missing_test_files := false }

/-- The Release/dynamic base configuration of the windows table under the
empty environment, used to instantiate the round-trip theorem. -/
def roundtripConfig : BuildConfig :=
  { settings :=
      [("os", "Windows"), ("build_type", "Release"), ("arch", "x86_64"),
       ("compiler", "msvc"), ("compiler.cppstd", "17"),
       ("compiler.version", "192"), ("compiler.runtime", "dynamic")],
    wchar_t := "builtin", pybind := false, testing := false,
    buildenv := mkBuildenv env0 }

/-- Decidable equality for `Except` results, used to evaluate the embedded
fallible functions on concrete inputs. -/
instance {ε α : Type} [DecidableEq ε] [DecidableEq α] : DecidableEq (Except ε α) := fun x y =>
  match x, y with
  | Except.error a, Except.error b =>
    if h : a = b then isTrue (by rw [h]) else isFalse (by simp [h])
  | Except.ok a, Except.ok b =>
    if h : a = b then isTrue (by rw [h]) else isFalse (by simp [h])
  | Except.error _, Except.ok _ => isFalse (by simp)
  | Except.ok _, Except.error _ => isFalse (by simp)

lemma list_contains_iff {l : List String} {x : String} : l.contains x = true ↔ x ∈ l :=
  List.elem_iff

lemma length_flatMap_cons {α : Type} (vs : List α) (L : List (List α)) :
    (vs.flatMap (fun v => L.map (fun combo => v :: combo))).length = vs.length * L.length := by
  induction vs with
  | nil => simp
  | cons hd tl ih => simp [List.flatMap_cons, ih, Nat.succ_mul, Nat.add_comm]

lemma cartesianProduct_length (ls : List (List String)) :
    (cartesianProduct ls).length = (ls.map List.length).prod := by
  induction ls with
  | nil => simp [cartesianProduct]
  | cons hd tl ih => rw [cartesianProduct, length_flatMap_cons, ih]; simp

/-- C1.  For every axis table and environment, the base list of
`generate_configurations` has exactly the product of the axis value-list
lengths, and the final list is base ++ wide-char overlay ++ binding overlay
++ testing overlay with no de-duplication, so its length is base count plus
the number of base entries passing the wide-char compiler test (the
MSVC-family compiler of the respective table: `'msvc'` in packager.py,
`'Visual Studio'` in conan2_helpers.py) plus the number of binding-eligible
base entries plus base count again.  Both embedded generators are covered. -/
theorem generate_configurations_length (axes : List (String × List String))
    (env : String → Option String) :
    (baseConfigs axes env).length = (axes.map (fun a => a.2.length)).prod
    ∧ (packagerGenerateConfigurations axes env).length =
        (baseConfigs axes env).length
          + ((baseConfigs axes env).countP (fun c => settingsValue c "compiler" == some "msvc"))
          + ((baseConfigs axes env).countP pybindEligible)
          + (baseConfigs axes env).length
    ∧ (conan2GenerateConfigurations axes env).length =
        (baseConfigs axes env).length
          + ((baseConfigs axes env).countP
              (fun c => settingsValue c "compiler" == some "Visual Studio"))
          + ((baseConfigs axes env).countP pybindEligible)
          + (baseConfigs axes env).length := by
  refine ⟨?_, ?_, ?_⟩
  · simp [baseConfigs, baseCombinations, cartesianProduct_length, List.map_map]
    rfl
  · simp [packagerGenerateConfigurations, List.countP_eq_length_filter]
    omega
  · simp [conan2GenerateConfigurations, List.countP_eq_length_filter]
    omega

lemma trueValues_contains_iff (n : String) (a : Bool) :
    ((["true", "1", "yes", "on"] ++ (if a then ["builtin"] else [])).contains n = true) ↔
      (n ∈ (["true", "1", "yes", "on"] : List String) ∨ (a = true ∧ n = "builtin")) := by
  cases a <;> simp [list_contains_iff] <;> tauto

/-- C6.  The boolean option normalizer: `None` gives `"False"`; a string
gives `"True"` exactly when its stripped, lower-cased form is one of
`true`, `1`, `yes`, `on`, or is `builtin` while aliases are allowed; every
other value (including `"BUILTIN"` without aliases) gives `"False"`. -/
theorem parse_bool_option_normalization :
    (∀ a, parseBoolOption none a = "False")
    ∧ (∀ s a, parseBoolOption (some s) a = "True" ↔
        (pyLower (pyStrip s) ∈ (["true", "1", "yes", "on"] : List String)
          ∨ (a = true ∧ pyLower (pyStrip s) = "builtin")))
    ∧ (∀ s a, parseBoolOption (some s) a = "True" ∨ parseBoolOption (some s) a = "False")
    ∧ parseBoolOption (some "BUILTIN") true = "True"
    ∧ parseBoolOption (some "BUILTIN") false = "False" := by
  have hcases : ∀ (s : String) (a : Bool),
      parseBoolOption (some s) a =
        (if (["true", "1", "yes", "on"] ++ (if a then ["builtin"] else [])).contains
            (pyLower (pyStrip s)) = true then "True" else "False") := by
    intro s a
    simp only [parseBoolOption]
  refine ⟨fun a => rfl, ?_, ?_, by decide, by decide⟩
  · intro s a
    rw [hcases]
    by_cases h : ((["true", "1", "yes", "on"] ++ (if a then ["builtin"] else [])).contains
        (pyLower (pyStrip s)) = true)
    · rw [if_pos h]
      exact ⟨fun _ => (trueValues_contains_iff _ _).mp h, fun _ => rfl⟩
    · rw [if_neg h]
      constructor
      · intro hh; exact absurd hh (by decide)
      · intro hh; exact absurd ((trueValues_contains_iff _ _).mpr hh) h
  · intro s a
    rw [hcases]
    by_cases h : ((["true", "1", "yes", "on"] ++ (if a then ["builtin"] else [])).contains
        (pyLower (pyStrip s)) = true)
    · left; rw [if_pos h]
    · right; rw [if_neg h]

lemma step_visited_mono (recur : String → List String → (List (String × String) × List String))
    (dir : String) (st : ParseState) (raw : String)
    (h : ∀ p v, v ⊆ (recur p v).2) :
    st.visited ⊆ (parseLineStep recur dir st raw).visited := by
  simp only [parseLineStep]
  split
  · exact fun a ha => ha
  split
  · exact h _ _
  split
  · exact fun a ha => ha
  split
  · exact fun a ha => ha
  split
  · exact fun a ha => ha
  split
  · exact fun a ha => ha
  · exact fun a ha => ha

lemma foldl_visited_mono (recur : String → List String → (List (String × String) × List String))
    (dir : String) (h : ∀ p v, v ⊆ (recur p v).2) :
    ∀ (lines : List String) (st : ParseState),
      st.visited ⊆ (lines.foldl (parseLineStep recur dir) st).visited := by
  intro lines
  induction lines with
  | nil => intro st; exact fun a ha => ha
  | cons raw rest ih =>
    intro st
    exact fun a ha => ih (parseLineStep recur dir st raw) (step_visited_mono recur dir st raw h ha)

lemma parseF_visited_mono (fs : FileSystem) :
    ∀ (fuel : Nat) (p : String) (v : List String), v ⊆ (parseProfileF fs fuel p v).2 := by
  intro fuel
  induction fuel with
  | zero => intro p v; simp [parseProfileF]
  | succ fuel ih =>
    intro p v
    simp only [parseProfileF]
    split
    · exact fun a ha => ha
    · intro a ha
      exact foldl_visited_mono (parseProfileF fs fuel) _ (fun p' v' => ih p' v') _ _
        (List.mem_cons_of_mem _ ha)

lemma filter_length_le_of_imp {α : Type} (l : List α) (p q : α → Bool)
    (h : ∀ x, q x = true → p x = true) :
    (l.filter q).length ≤ (l.filter p).length := by
  induction l with
  | nil => simp
  | cons a l ih =>
    by_cases hq : q a = true
    · rw [List.filter_cons_of_pos hq, List.filter_cons_of_pos (h a hq)]
      exact Nat.succ_le_succ ih
    · rw [List.filter_cons_of_neg (by simpa using hq)]
      by_cases hp : p a = true
      · rw [List.filter_cons_of_pos hp]
        exact Nat.le_succ_of_le ih
      · rw [List.filter_cons_of_neg (by simpa using hp)]
        exact ih

lemma filter_length_lt_of_imp {α : Type} (l : List α) (p q : α → Bool)
    (himp : ∀ x, q x = true → p x = true) (x : α) (hx : x ∈ l)
    (hpx : p x = true) (hqx : q x = false) :
    (l.filter q).length < (l.filter p).length := by
  induction l with
  | nil => cases hx
  | cons a l ih =>
    rcases List.mem_cons.mp hx with rfl | hmem
    · rw [List.filter_cons_of_pos hpx, List.filter_cons_of_neg (by simp [hqx])]
      exact Nat.lt_succ_of_le (filter_length_le_of_imp l p q himp)
    · by_cases hq : q a = true
      · rw [List.filter_cons_of_pos hq, List.filter_cons_of_pos (himp a hq)]
        exact Nat.succ_lt_succ (ih hmem)
      · rw [List.filter_cons_of_neg (by simpa using hq)]
        by_cases hp : p a = true
        · rw [List.filter_cons_of_pos hp]
          exact Nat.lt_succ_of_lt (ih hmem)
        · rw [List.filter_cons_of_neg (by simpa using hp)]
          exact ih hmem

lemma unvisitedCount_mono (fs : FileSystem) {v v' : List String} (h : v ⊆ v') :
    unvisitedCount fs v' ≤ unvisitedCount fs v := by
  refine filter_length_le_of_imp _ _ _ ?_
  intro x hx
  simp only [Bool.not_eq_true', ← Bool.not_eq_true] at hx ⊢
  intro hc
  exact hx (list_contains_iff.mpr (h (list_contains_iff.mp hc)))

lemma unvisitedCount_cons_lt (fs : FileSystem) {p : String} {v : List String}
    (hp : p ∈ fsPaths fs) (hv : p ∉ v) :
    unvisitedCount fs (p :: v) < unvisitedCount fs v := by
  refine filter_length_lt_of_imp _ _ _ ?_ p hp ?_ ?_
  · intro x hx
    simp only [Bool.not_eq_true', ← Bool.not_eq_true] at hx ⊢
    intro hc
    exact hx (list_contains_iff.mpr (List.mem_cons_of_mem _ (list_contains_iff.mp hc)))
  · show (!(v.contains p)) = true
    cases hcp : v.contains p
    · rfl
    · exact absurd (list_contains_iff.mp hcp) hv
  · show (!((p :: v).contains p)) = false
    have h : (p :: v).contains p = true := list_contains_iff.mpr (List.mem_cons_self p v)
    simp [h]

lemma unvisitedCount_le_files (fs : FileSystem) (v : List String) :
    unvisitedCount fs v ≤ fs.files.length := by
  calc unvisitedCount fs v ≤ (fsPaths fs).length := List.length_filter_le _ _
    _ = fs.files.length := List.length_map _ _

lemma mem_of_lookup_eq_some {β : Type} {l : List (String × β)} {p : String} {b : β}
    (h : l.lookup p = some b) : (p, b) ∈ l := by
  induction l with
  | nil => simp [List.lookup] at h
  | cons hd tl ih =>
    rw [List.lookup] at h
    cases hc : p == hd.1
    · rw [hc] at h
      exact List.mem_cons_of_mem _ (ih h)
    · rw [hc] at h
      have h1 : hd.1 = p := (eq_of_beq hc).symm
      have h2 : hd.2 = b := Option.some.inj h
      exact List.mem_cons.mpr (Or.inl (by rw [← h1, ← h2]))

lemma isFile_mem_fsPaths {fs : FileSystem} {p : String} (h : isFile fs p = true) :
    p ∈ fsPaths fs := by
  simp only [isFile, lookupFile, Option.isSome_iff_exists] at h
  obtain ⟨lines, hl⟩ := h
  exact List.mem_map.mpr ⟨(p, lines), mem_of_lookup_eq_some hl, rfl⟩

lemma step_congr (fs : FileSystem) (a b : Nat) (dir : String) (st : ParseState) (raw : String)
    (hr : ∀ p v, unvisitedCount fs v < a → unvisitedCount fs v < b →
      parseProfileF fs a p v = parseProfileF fs b p v)
    (h1 : unvisitedCount fs st.visited < a) (h2 : unvisitedCount fs st.visited < b) :
    parseLineStep (parseProfileF fs a) dir st raw = parseLineStep (parseProfileF fs b) dir st raw := by
  simp only [parseLineStep]
  rw [hr (includePathResolve dir (includeTarget (pyStrip raw))) st.visited h1 h2]

lemma foldl_step_congr (fs : FileSystem) (a b : Nat) (dir : String)
    (hr : ∀ p v, unvisitedCount fs v < a → unvisitedCount fs v < b →
      parseProfileF fs a p v = parseProfileF fs b p v) :
    ∀ (lines : List String) (st : ParseState),
      unvisitedCount fs st.visited < a → unvisitedCount fs st.visited < b →
      lines.foldl (parseLineStep (parseProfileF fs a) dir) st
        = lines.foldl (parseLineStep (parseProfileF fs b) dir) st := by
  intro lines
  induction lines with
  | nil => intro st h1 h2; rfl
  | cons raw rest ih =>
    intro st h1 h2
    rw [List.foldl_cons, List.foldl_cons, step_congr fs a b dir st raw hr h1 h2]
    have hsub : st.visited ⊆ (parseLineStep (parseProfileF fs b) dir st raw).visited :=
      step_visited_mono _ dir st raw (fun p v => parseF_visited_mono fs b p v)
    exact ih _ (lt_of_le_of_lt (unvisitedCount_mono fs hsub) h1)
      (lt_of_le_of_lt (unvisitedCount_mono fs hsub) h2)

lemma guard_false_parts {fs : FileSystem} {v : List String} {q : String}
    (hg : ¬((v.contains q || !(isFile fs q)) = true)) :
    q ∈ fsPaths fs ∧ q ∉ v := by
  rw [Bool.or_eq_true] at hg
  push_neg at hg
  obtain ⟨hc, hf⟩ := hg
  have hfile : isFile fs q = true := by
    cases hh : isFile fs q
    · exact absurd (by rw [hh]; rfl) hf
    · rfl
  exact ⟨isFile_mem_fsPaths hfile, fun hm => hc (list_contains_iff.mpr hm)⟩

lemma parseF_fuel_congr (fs : FileSystem) :
    ∀ (a b : Nat) (p : String) (v : List String),
      unvisitedCount fs v < a → unvisitedCount fs v < b →
      parseProfileF fs a p v = parseProfileF fs b p v := by
  intro a
  induction a with
  | zero => intro b p v h1 _; exact absurd h1 (Nat.not_lt_zero _)
  | succ a iha =>
    intro b p v h1 h2
    cases b with
    | zero => exact absurd h2 (Nat.not_lt_zero _)
    | succ b =>
      simp only [parseProfileF]
      by_cases hg : ((v.contains (absPathFS fs p) || !(isFile fs (absPathFS fs p))) = true)
      · rw [if_pos hg, if_pos hg]
      · rw [if_neg hg, if_neg hg]
        obtain ⟨hmem, hnv⟩ := guard_false_parts hg
        have hlt := unvisitedCount_cons_lt fs hmem hnv
        have h1' : unvisitedCount fs (absPathFS fs p :: v) < a :=
          lt_of_lt_of_le hlt (Nat.lt_succ_iff.mp h1)
        have h2' : unvisitedCount fs (absPathFS fs p :: v) < b :=
          lt_of_lt_of_le hlt (Nat.lt_succ_iff.mp h2)
        rw [foldl_step_congr fs a b _ (fun p' v' ha hb => iha b p' v' ha hb) _ _ h1' h2']

lemma parseProfile_unfold (fs : FileSystem) (path : String) (visited : List String) :
    parseProfile fs path visited =
      (if (visited.contains (absPathFS fs path) || !(isFile fs (absPathFS fs path))) = true
       then ([], visited)
       else
         ((((lookupFile fs (absPathFS fs path)).getD []).foldl
            (parseLineStep (fun p v => parseProfile fs p v) (dirNameFS (absPathFS fs path)))
            ⟨none, [], absPathFS fs path :: visited⟩).options,
          (((lookupFile fs (absPathFS fs path)).getD []).foldl
            (parseLineStep (fun p v => parseProfile fs p v) (dirNameFS (absPathFS fs path)))
            ⟨none, [], absPathFS fs path :: visited⟩).visited)) := by
  show parseProfileF fs (fs.files.length + 1) path visited = _
  by_cases hg : ((visited.contains (absPathFS fs path) || !(isFile fs (absPathFS fs path))) = true)
  · simp only [parseProfileF]
    rw [if_pos hg, if_pos hg]
  · simp only [parseProfileF]
    rw [if_neg hg, if_neg hg]
    obtain ⟨hmem, hnv⟩ := guard_false_parts hg
    have hlt := unvisitedCount_cons_lt fs hmem hnv
    have hle := unvisitedCount_le_files fs visited
    have h1' : unvisitedCount fs (absPathFS fs path :: visited) < fs.files.length :=
      lt_of_lt_of_le hlt hle
    have h2' : unvisitedCount fs (absPathFS fs path :: visited) < fs.files.length + 1 :=
      Nat.lt_succ_of_lt h1'
    rw [foldl_step_congr fs fs.files.length (fs.files.length + 1) _
      (fun p' v' ha hb => parseF_fuel_congr fs fs.files.length (fs.files.length + 1) p' v' ha hb)
      _ _ h1' h2']
    rfl

lemma include_line_not_blank {l : String} (h : isIncludeLine l = true) :
    (l.data.isEmpty || l.data.head? == some '#') = false := by
  rw [isIncludeLine, Bool.and_eq_true] at h
  obtain ⟨hpre, -⟩ := h
  cases hd : l.data with
  | nil => rw [pyLower] at hpre; simp [hd] at hpre
  | cons c cs =>
    have hlc : pyLowerChar c = 'i' := by
      rw [pyLower] at hpre
      rw [hd] at hpre
      simp only [List.map_cons, List.isPrefixOf] at hpre
      rw [Bool.and_eq_true] at hpre
      exact (beq_iff_eq.mp hpre.1).symm
    have hc : c ≠ '#' := by
      intro hcc
      rw [hcc] at hlc
      exact absurd hlc (by decide)
    simp [hd, hc]

lemma step_blank (recur : String → List String → (List (String × String) × List String))
    (dir : String) (st : ParseState) (raw : String)
    (hblank : ((pyStrip raw).data.isEmpty || (pyStrip raw).data.head? == some '#') = true) :
    parseLineStep recur dir st raw = st := by
  simp [parseLineStep, hblank]

lemma step_include (recur : String → List String → (List (String × String) × List String))
    (dir : String) (st : ParseState) (raw : String)
    (h : isIncludeLine (pyStrip raw) = true) :
    parseLineStep recur dir st raw =
      { st with
        options := st.options
          ++ (recur (includePathResolve dir (includeTarget (pyStrip raw))) st.visited).1,
        visited := (recur (includePathResolve dir (includeTarget (pyStrip raw))) st.visited).2 } := by
  simp [parseLineStep, include_line_not_blank h, h]

lemma step_inert (recur : String → List String → (List (String × String) × List String))
    (dir : String) (st : ParseState) (raw : String)
    (hinert : inertLine raw = true) (hsec : st.currentSection ≠ some "options") :
    parseLineStep recur dir st raw = st := by
  rw [inertLine, Bool.and_eq_true] at hinert
  obtain ⟨hi, hs⟩ := hinert
  rw [Bool.not_eq_true'] at hi hs
  have hbne : (st.currentSection != some "options") = true := bne_iff_ne.mpr hsec
  simp [parseLineStep, hi, hs, hbne]

lemma step_no_include_pure (recur : String → List String → (List (String × String) × List String))
    (dir : String) (st : ParseState) (raw : String)
    (hni : isIncludeLine (pyStrip raw) = false) :
    parseLineStep recur dir st raw =
      { currentSection := (pureLineStep (st.currentSection, st.options) raw).1,
        options := (pureLineStep (st.currentSection, st.options) raw).2,
        visited := st.visited } := by
  simp only [parseLineStep, pureLineStep, hni, Bool.false_eq_true, if_false]
  split
  · rfl
  split
  · rfl
  split
  · rfl
  split
  · rfl
  split
  · rfl
  · rfl

lemma foldl_no_include (recur : String → List String → (List (String × String) × List String))
    (dir : String) :
    ∀ (lines : List String) (st : ParseState),
      (∀ l ∈ lines, isIncludeLine (pyStrip l) = false) →
      lines.foldl (parseLineStep recur dir) st =
        { currentSection := (pureProcess lines (st.currentSection, st.options)).1,
          options := (pureProcess lines (st.currentSection, st.options)).2,
          visited := st.visited } := by
  intro lines
  induction lines with
  | nil => intro st _; rfl
  | cons raw rest ih =>
    intro st h
    rw [List.foldl_cons, step_no_include_pure recur dir st raw (h raw (List.mem_cons_self _ _)),
      ih _ (fun l hl => h l (List.mem_cons_of_mem _ hl))]
    rfl

lemma pureLineStep_opts (s : Option String × List (String × String)) (raw : String) :
    pureLineStep s raw = ((pureLineStep (s.1, []) raw).1, s.2 ++ (pureLineStep (s.1, []) raw).2) := by
  obtain ⟨sec, m⟩ := s
  simp only [pureLineStep]
  split
  · simp
  split
  · simp
  split
  · simp
  split
  · simp
  split
  · simp
  · split
    · simp
    · simp

lemma pureProcess_opts (lines : List String) :
    ∀ (sec : Option String) (m : List (String × String)),
      pureProcess lines (sec, m) =
        ((pureProcess lines (sec, [])).1, m ++ (pureProcess lines (sec, [])).2) := by
  induction lines with
  | nil => intro sec m; simp [pureProcess]
  | cons raw rest ih =>
    intro sec m
    show pureProcess rest (pureLineStep (sec, m) raw) = _
    rw [pureLineStep_opts (sec, m) raw]
    have hbase : pureProcess (raw :: rest) (sec, []) = pureProcess rest (pureLineStep (sec, []) raw) :=
      rfl
    rw [hbase]
    rcases hps : pureLineStep (sec, []) raw with ⟨sec', delta⟩
    rw [ih sec' (m ++ delta), ih sec' delta]
    simp [List.append_assoc]

lemma dlookup_append (m1 m2 : List (String × String)) (k : String) :
    dlookup (m1 ++ m2) k = ((dlookup m2 k).orElse (fun _ => dlookup m1 k)) := by
  induction m1 with
  | nil =>
    cases h : dlookup m2 k <;> simp [dlookup, Option.orElse, h]
  | cons hd m1 ih =>
    obtain ⟨k', v⟩ := hd
    show dlookup ((k', v) :: (m1 ++ m2)) k = _
    rw [dlookup, ih]
    cases h : dlookup m2 k
    · simp [Option.orElse, dlookup]
    · simp [Option.orElse]

lemma parseProfile_guard_empty (fs : FileSystem) (path : String) (visited : List String)
    (h : absPathFS fs path ∈ visited ∨ lookupFile fs (absPathFS fs path) = none) :
    parseProfile fs path visited = ([], visited) := by
  rw [parseProfile_unfold]
  have hg : (visited.contains (absPathFS fs path) || !(isFile fs (absPathFS fs path))) = true := by
    rcases h with hm | hn
    · have hc : visited.contains (absPathFS fs path) = true := list_contains_iff.mpr hm
      rw [hc, Bool.true_or]
    · simp [isFile, hn]
  rw [if_pos hg]

/-- C7.  A profile path whose absolute form is already in the visited set, or
does not name an existing file, parses to the empty map with the visited set
unchanged — silently, with no error (the embedded function is total and has
no error outcome at all). -/
theorem parse_missing_or_cyclic_empty (fs : FileSystem) (path : String) (visited : List String)
    (h : absPathFS fs path ∈ visited ∨ lookupFile fs (absPathFS fs path) = none) :
    parseProfile fs path visited = ([], visited) :=
  parseProfile_guard_empty fs path visited h

/-- Witness for C7: a path that names no file in the two-profile fixture
parses to the empty map. -/
theorem parse_missing_or_cyclic_empty_witness :
    (lookupFile fsInclude (absPathFS fsInclude "/r/missing") = none)
    ∧ parseProfile fsInclude "/r/missing" [] = ([], []) :=
  ⟨by decide, parse_missing_or_cyclic_empty fsInclude "/r/missing" []
    (Or.inr (by decide))⟩

lemma step_keys_clean (recur : String → List String → (List (String × String) × List String))
    (dir : String) (st : ParseState) (raw : String)
    (hrec : ∀ p v k val, (k, val) ∈ (recur p v).1 →
      k.data.contains '/' = false ∧ k.data.contains ':' = false)
    (hst : ∀ k val, (k, val) ∈ st.options →
      k.data.contains '/' = false ∧ k.data.contains ':' = false) :
    ∀ k val, (k, val) ∈ (parseLineStep recur dir st raw).options →
      k.data.contains '/' = false ∧ k.data.contains ':' = false := by
  intro k val
  simp only [parseLineStep]
  split
  · exact hst k val
  split
  · intro hmem
    rcases List.mem_append.mp hmem with hmem | hmem
    · exact hst k val hmem
    · exact hrec _ _ k val hmem
  split
  · exact hst k val
  split
  · exact hst k val
  split
  · exact hst k val
  split
  · exact hst k val
  · rename_i heq hscoped
    intro hmem
    rcases List.mem_append.mp hmem with hmem | hmem
    · exact hst k val hmem
    · have hk := List.mem_singleton.mp hmem
      have hk1 := congrArg Prod.fst hk
      simp only at hk1
      rw [Bool.not_eq_true, isScopedKey, Bool.or_eq_false_iff] at hscoped
      rw [hk1]
      exact hscoped

lemma foldl_keys_clean (recur : String → List String → (List (String × String) × List String))
    (dir : String)
    (hrec : ∀ p v k val, (k, val) ∈ (recur p v).1 →
      k.data.contains '/' = false ∧ k.data.contains ':' = false) :
    ∀ (lines : List String) (st : ParseState),
      (∀ k val, (k, val) ∈ st.options →
        k.data.contains '/' = false ∧ k.data.contains ':' = false) →
      ∀ k val, (k, val) ∈ (lines.foldl (parseLineStep recur dir) st).options →
        k.data.contains '/' = false ∧ k.data.contains ':' = false := by
  intro lines
  induction lines with
  | nil => intro st hst; exact hst
  | cons raw rest ih =>
    intro st hst
    exact ih _ (step_keys_clean recur dir st raw hrec hst)

lemma parseF_keys_clean (fs : FileSystem) :
    ∀ (fuel : Nat) (p : String) (v : List String) (k val : String),
      (k, val) ∈ (parseProfileF fs fuel p v).1 →
      k.data.contains '/' = false ∧ k.data.contains ':' = false := by
  intro fuel
  induction fuel with
  | zero => intro p v k val h; simp [parseProfileF] at h
  | succ fuel ih =>
    intro p v k val
    simp only [parseProfileF]
    split
    · intro h; simp at h
    · exact foldl_keys_clean _ _ (fun p' v' => ih p' v') _ _ (by intro k' val' h'; simp at h') k val

/-- C5.  Every key in the map returned by the profile parser is free of `/`
and `:`: a package- or version-scoped key (such as `xmscore/*:*testing`)
never survives, in any section of any input file. -/
theorem parse_profile_no_scoped_keys (fs : FileSystem) (path : String) (k v : String)
    (h : (k, v) ∈ parseProfileOptionsMap fs path) :
    k.data.contains '/' = false ∧ k.data.contains ':' = false :=
  parseF_keys_clean fs (fs.files.length + 1) path [] k v h

/-- Witness for C5: the fixture file contains the scoped line
`xmscore/*:*testing=False`; the unscoped key `testing` is in the parsed map
and is clean, and the scoped key is indeed absent. -/
theorem parse_profile_no_scoped_keys_witness :
    (("testing", "True") ∈ parseProfileOptionsMap fsInclude "/r/release_profile")
    ∧ ("testing".data.contains '/' = false ∧ "testing".data.contains ':' = false)
    ∧ ("xmscore/*:*testing" ∉ (parseProfileOptionsMap fsInclude "/r/release_profile").map Prod.fst) :=
  ⟨by decide,
   parse_profile_no_scoped_keys fsInclude "/r/release_profile" "testing" "True" (by decide),
   by decide⟩

lemma parseProfile_of_file (fs : FileSystem) (path : String) (visited : List String)
    (lines : List String)
    (hfile : lookupFile fs (absPathFS fs path) = some lines)
    (hnv : absPathFS fs path ∉ visited) :
    parseProfile fs path visited =
      ((lines.foldl (parseLineStep (fun p v => parseProfile fs p v) (dirNameFS (absPathFS fs path)))
          ⟨none, [], absPathFS fs path :: visited⟩).options,
       (lines.foldl (parseLineStep (fun p v => parseProfile fs p v) (dirNameFS (absPathFS fs path)))
          ⟨none, [], absPathFS fs path :: visited⟩).visited) := by
  rw [parseProfile_unfold]
  have hc : visited.contains (absPathFS fs path) = false := by
    cases hcc : visited.contains (absPathFS fs path)
    · rfl
    · exact absurd (list_contains_iff.mp hcc) hnv
  have hf : isFile fs (absPathFS fs path) = true := by
    simp [isFile, hfile]
  have hng : ¬ ((visited.contains (absPathFS fs path) || !(isFile fs (absPathFS fs path))) = true) := by
    rw [hc, hf]
    simp
  rw [if_neg hng]
  rw [hfile]
  rfl

lemma option_orElse_assoc (a b c : Option String) :
    ((a.orElse (fun _ => b)).orElse (fun _ => c)) = (a.orElse (fun _ => b.orElse (fun _ => c))) := by
  cases a <;> cases b <;> simp [Option.orElse]

/-- C3.  When a profile file `P` contains an `include(...)` line for a target
`t`, the included file's options are merged into the accumulating map at the
point of the include — after the lines before it, before the lines after it —
so the final map is (pre-options) ++ (included map) ++ (post-options), and a
key lookup takes, in order of precedence, the value written after the
include, else the included file's value, else the value written before the
include (last write wins in one linear walk). -/
theorem parse_include_merge (fs : FileSystem) (pA t : String)
    (pre post : List String) (incline : String)
    (hfile : lookupFile fs (absPathFS fs pA) = some (pre ++ incline :: post))
    (hpre : ∀ l ∈ pre, isIncludeLine (pyStrip l) = false)
    (hinc : isIncludeLine (pyStrip incline) = true)
    (htgt : includeTarget (pyStrip incline) = t)
    (hpost : ∀ l ∈ post, isIncludeLine (pyStrip l) = false) :
    parseProfileOptionsMap fs pA =
      (pureProcess pre (none, [])).2
        ++ (parseProfile fs (includePathResolve (dirNameFS (absPathFS fs pA)) t)
            [absPathFS fs pA]).1
        ++ (pureProcess post ((pureProcess pre (none, [])).1, [])).2
    ∧ ∀ k, dlookup (parseProfileOptionsMap fs pA) k =
        ((dlookup (pureProcess post ((pureProcess pre (none, [])).1, [])).2 k).orElse
          (fun _ =>
            ((dlookup (parseProfile fs (includePathResolve (dirNameFS (absPathFS fs pA)) t)
                [absPathFS fs pA]).1 k).orElse
              (fun _ => dlookup (pureProcess pre (none, [])).2 k)))) := by
  have hmain : parseProfileOptionsMap fs pA =
      (pureProcess pre (none, [])).2
        ++ (parseProfile fs (includePathResolve (dirNameFS (absPathFS fs pA)) t)
            [absPathFS fs pA]).1
        ++ (pureProcess post ((pureProcess pre (none, [])).1, [])).2 := by
    show (parseProfile fs pA []).1 = _
    rw [parseProfile_of_file fs pA [] _ hfile (List.not_mem_nil _)]
    rw [List.foldl_append]
    rw [foldl_no_include _ _ pre _ hpre]
    rw [List.foldl_cons]
    rw [step_include _ _ _ _ hinc, htgt]
    rw [foldl_no_include _ _ post _ hpost]
    show (pureProcess post ((pureProcess pre (none, [])).1,
        (pureProcess pre (none, [])).2 ++ _)).2 = _
    rw [pureProcess_opts]
  refine ⟨hmain, fun k => ?_⟩
  rw [hmain, dlookup_append, dlookup_append]

/-- Witness for C3, mirroring the repository's include test: the release
profile includes the base profile; `testing` (defined only in the base)
keeps the base's value, `pybind` (defined in both) takes the including
file's value. -/
theorem parse_include_merge_witness :
    (lookupFile fsInclude (absPathFS fsInclude "/r/release_profile")
      = some ([] ++ "include(base_profile)" :: ["[options]", "&:pybind=False"]))
    ∧ dlookup (parseProfileOptionsMap fsInclude "/r/release_profile") "pybind" = some "False"
    ∧ dlookup (parseProfileOptionsMap fsInclude "/r/release_profile") "testing" = some "True"
    ∧ dlookup (parseProfileOptionsMap fsInclude "/r/release_profile") "wchar_t"
        = some "builtin" := by
  have h := parse_include_merge fsInclude "/r/release_profile" "base_profile"
    [] ["[options]", "&:pybind=False"] "include(base_profile)"
    (by decide) (by decide) (by decide) (by decide) (by decide)
  refine ⟨by decide, ?_, ?_, ?_⟩
  · rw [h.2 "pybind"]; decide
  · rw [h.2 "testing"]; decide
  · rw [h.2 "wchar_t"]; decide

/-- C4.  Two profile files that include each other parse without infinite
recursion (the embedded parser is a total function, and the equation below is
about its value), and the result is the union of the two files' own unscoped
options: the included file's options first, then the including file's,
so the including file wins a key collision. -/
theorem parse_cyclic_includes_union (fs : FileSystem) (pA tB tA : String)
    (inclineA inclineB : String) (restA restB : List String)
    (hfileA : lookupFile fs (absPathFS fs pA) = some (inclineA :: restA))
    (hincA : isIncludeLine (pyStrip inclineA) = true)
    (htgtA : includeTarget (pyStrip inclineA) = tB)
    (hrestA : ∀ l ∈ restA, isIncludeLine (pyStrip l) = false)
    (hfileB : lookupFile fs (absPathFS fs (includePathResolve (dirNameFS (absPathFS fs pA)) tB))
        = some (inclineB :: restB))
    (hneq : absPathFS fs (includePathResolve (dirNameFS (absPathFS fs pA)) tB) ≠ absPathFS fs pA)
    (hincB : isIncludeLine (pyStrip inclineB) = true)
    (htgtB : includeTarget (pyStrip inclineB) = tA)
    (hcycle : absPathFS fs (includePathResolve
        (dirNameFS (absPathFS fs (includePathResolve (dirNameFS (absPathFS fs pA)) tB))) tA)
      = absPathFS fs pA)
    (hrestB : ∀ l ∈ restB, isIncludeLine (pyStrip l) = false) :
    parseProfileOptionsMap fs pA =
      (pureProcess restB (none, [])).2 ++ (pureProcess restA (none, [])).2
    ∧ ∀ k, dlookup (parseProfileOptionsMap fs pA) k =
        ((dlookup (pureProcess restA (none, [])).2 k).orElse
          (fun _ => dlookup (pureProcess restB (none, [])).2 k)) := by
  have hB1 : (parseProfile fs (includePathResolve (dirNameFS (absPathFS fs pA)) tB)
      [absPathFS fs pA]).1 = (pureProcess restB (none, [])).2 := by
    rw [parseProfile_of_file fs _ [absPathFS fs pA] _ hfileB
      (by intro hm; exact hneq (List.mem_singleton.mp hm))]
    rw [List.foldl_cons]
    rw [step_include _ _ _ _ hincB, htgtB]
    have hcyc := parseProfile_guard_empty fs
      (includePathResolve
        (dirNameFS (absPathFS fs (includePathResolve (dirNameFS (absPathFS fs pA)) tB))) tA)
      [absPathFS fs (includePathResolve (dirNameFS (absPathFS fs pA)) tB), absPathFS fs pA]
      (Or.inl (by rw [hcycle]; exact List.mem_cons_of_mem _ (List.mem_cons_self _ _)))
    rw [hcyc]
    rw [foldl_no_include _ _ restB _ hrestB]
    rfl
  have hmain : parseProfileOptionsMap fs pA =
      (pureProcess restB (none, [])).2 ++ (pureProcess restA (none, [])).2 := by
    show (parseProfile fs pA []).1 = _
    rw [parseProfile_of_file fs pA [] _ hfileA (List.not_mem_nil _)]
    rw [List.foldl_cons]
    rw [step_include _ _ _ _ hincA, htgtA]
    rw [foldl_no_include _ _ restA _ hrestA]
    show (pureProcess restA (none,
        [] ++ (parseProfile fs (includePathResolve (dirNameFS (absPathFS fs pA)) tB)
          [absPathFS fs pA]).1)).2 = _
    rw [List.nil_append, hB1, pureProcess_opts]
  refine ⟨hmain, fun k => ?_⟩
  rw [hmain, dlookup_append]

/-- Witness for C4, mirroring the repository's cyclic-include test:
`profile_a` and `profile_b` include each other; the parse of `profile_a`
terminates with the union of both files' options. -/
theorem parse_cyclic_includes_union_witness :
    (lookupFile fsCyclic (absPathFS fsCyclic "/r/profile_a")
      = some ("include(profile_b)" :: ["[options]", "testing=True"]))
    ∧ parseProfileOptionsMap fsCyclic "/r/profile_a"
        = [("pybind", "True"), ("testing", "True")]
    ∧ dlookup (parseProfileOptionsMap fsCyclic "/r/profile_a") "testing" = some "True"
    ∧ dlookup (parseProfileOptionsMap fsCyclic "/r/profile_a") "pybind" = some "True" := by
  have h := parse_cyclic_includes_union fsCyclic "/r/profile_a" "profile_b" "profile_a"
    "include(profile_b)" "include(profile_a)"
    ["[options]", "testing=True"] ["[options]", "&:pybind=True"]
    (by decide) (by decide) (by decide) (by decide) (by decide) (by decide)
    (by decide) (by decide) (by decide) (by decide)
  refine ⟨by decide, ?_, ?_, ?_⟩
  · rw [h.1]; decide
  · rw [h.2 "testing"]; decide
  · rw [h.2 "pybind"]; decide

lemma mem_baseConfigs_fields {axes : List (String × List String)}
    {env : String → Option String} {b : BuildConfig} (hb : b ∈ baseConfigs axes env) :
    b.pybind = false ∧ b.testing = false ∧ b.wchar_t = "builtin"
    ∧ b.buildenv = mkBuildenv env ∧ b.settings ∈ baseCombinations axes := by
  simp only [baseConfigs, List.mem_map] at hb
  obtain ⟨s, hs, rfl⟩ := hb
  exact ⟨rfl, rfl, rfl, rfl, hs⟩

/-- Counterexample for C2 as stated.  In packager.py's windows table the
MSVC-family compiler is named `msvc` and the dynamic runtime variant is
`dynamic`; for the Release/static base configuration the claimed predicate
(`specBindingEligible`) is false, yet `generate_configurations` appends its
binding overlay anyway — the code compares against the literal
`'Visual Studio'`, which never matches `'msvc'`. -/
theorem pybind_overlay_spec_counterexample :
    (packagerConfigurations.lookup "windows" = some windowsAxes)
    ∧ (cexBaseConfig ∈ baseConfigs windowsAxes env0)
    ∧ ({ cexBaseConfig with pybind := true } ∈ packagerGenerateConfigurations windowsAxes env0)
    ∧ specBindingEligible cexBaseConfig = false :=
  ⟨by decide, by decide, by decide, by decide⟩

/-- C2 as amended.  A binding (pybind) overlay of a base configuration is in
the generated list exactly when the base configuration passes the source's
own guard: build_type is not `'Debug'`, and (the compiler literal is not
`'Visual Studio'` or the runtime is `'MD'`/`'MDd'`), and not (the compiler
literal is `'Visual Studio'` with version at most 12).  In packager.py, whose
windows table names the compiler `'msvc'`, the `'Visual Studio'` comparisons
never match, so every non-Debug base entry receives a binding overlay
regardless of its runtime. -/
theorem pybind_overlay_exactly_when (axes : List (String × List String))
    (env : String → Option String) (b : BuildConfig) (hb : b ∈ baseConfigs axes env) :
    ({ b with pybind := true } ∈ packagerGenerateConfigurations axes env)
      ↔ pybindEligible b = true := by
  obtain ⟨hpb, htest, hwchar, hbe, hset⟩ := mem_baseConfigs_fields hb
  constructor
  · intro hmem
    simp only [packagerGenerateConfigurations, List.mem_append] at hmem
    rcases hmem with ((h1 | h2) | h3) | h4
    · have hf := (mem_baseConfigs_fields h1).1
      simp at hf
    · simp only [List.mem_map] at h2
      obtain ⟨c, hc, hceq⟩ := h2
      have hcb : c ∈ baseConfigs axes env := (List.mem_filter.mp hc).1
      have hcpb := (mem_baseConfigs_fields hcb).1
      have := congrArg BuildConfig.pybind hceq
      simp [hcpb] at this
    · simp only [List.mem_map] at h3
      obtain ⟨c, hc, hceq⟩ := h3
      have hcb : c ∈ baseConfigs axes env := (List.mem_filter.mp hc).1
      have helig : pybindEligible c = true := by
        have := (List.mem_filter.mp hc).2
        simpa using this
      have hcpb := (mem_baseConfigs_fields hcb).1
      have hcb2 : c = b := by
        obtain ⟨cs, cw, cp, ct, ce⟩ := c
        obtain ⟨bs, bw, bp, bt, be⟩ := b
        simp only [BuildConfig.mk.injEq] at hceq hpb ⊢
        simp only at hcpb htest hwchar hbe
        exact ⟨hceq.1, hceq.2.1, by rw [hcpb, hpb], hceq.2.2.2.1, hceq.2.2.2.2⟩
      rw [← hcb2]
      exact helig
    · simp only [List.mem_map] at h4
      obtain ⟨c, hc, hceq⟩ := h4
      have := congrArg BuildConfig.testing hceq
      simp [htest] at this
  · intro helig
    simp only [packagerGenerateConfigurations, List.mem_append]
    refine Or.inl (Or.inr ?_)
    exact List.mem_map.mpr ⟨b, List.mem_filter.mpr ⟨hb, by simpa using helig⟩, rfl⟩

/-- Witness for the amended C2 at the windows table's Release/static base
configuration. -/
theorem pybind_overlay_exactly_when_witness :
    (cexBaseConfig ∈ baseConfigs windowsAxes env0)
    ∧ (({ cexBaseConfig with pybind := true } ∈ packagerGenerateConfigurations windowsAxes env0)
        ↔ pybindEligible cexBaseConfig = true) :=
  ⟨by decide, pybind_overlay_exactly_when windowsAxes env0 cexBaseConfig (by decide)⟩

lemma not_prefix_append (p a v : List Char)
    (h1 : p.isPrefixOf a = false) (h2 : a.isPrefixOf p = false) :
    p.isPrefixOf (a ++ v) = false := by
  induction p generalizing a with
  | nil => simp [List.isPrefixOf] at h1
  | cons c ps ih =>
    cases a with
    | nil => simp [List.isPrefixOf] at h2
    | cons d as =>
      simp only [List.cons_append, List.isPrefixOf, Bool.and_eq_false_iff] at h1 h2 ⊢
      rcases h1 with h1 | h1
      · exact Or.inl h1
      · rcases h2 with h2 | h2
        · refine Or.inl ?_
          cases hcd : c == d
          · rfl
          · exfalso
            rw [beq_iff_eq.mp hcd] at h2
            simp at h2
        · exact Or.inr (ih as h1 h2)

lemma no_test_path_element (a v : String)
    (h1 : "-DXMS_TEST_PATH=".data.isPrefixOf a.data = false)
    (h2 : a.data.isPrefixOf "-DXMS_TEST_PATH=".data = false) :
    ("-DXMS_TEST_PATH=".data.isPrefixOf (a ++ v).data) = false := by
  rw [String.data_append a v]
  exact not_prefix_append _ _ _ h1 h2

lemma pyTruthyGetD_ne_empty (o : Option String) : pyTruthyGetD o "./test_files" ≠ "" := by
  cases o with
  | none => decide
  | some s =>
    simp only [pyTruthyGetD]
    split
    · decide
    · assumption

/-- Counterexample for C8 as stated.  With a profile enabling both `pybind`
and `testing` and an existing test-files directory, `get_cmake_options`
returns the python-target option but no `-DXMS_TEST_PATH` option at all: the
testing branch is an `elif` of the pybind branch, so "whenever the testing
option is enabled" is false. -/
theorem get_cmake_options_testing_dropped_counterexample :
    (dlookup (parseProfileOptionsMap fsCmake cexCmakeArgs.profile) "testing" = some "True")
    ∧ (isDir fsCmake "/w/tf" = true ∧ cexCmakeArgs.test_files = some "/w/tf")
    ∧ getCmakeOptions fsCmake cexCmakeArgs =
        Except.ok ["-DBUILD_TESTING=True", "-DIS_PYTHON_BUILD=True", "-DXMS_BUILD=False",
          "-DCMAKE_INSTALL_PREFIX=/w/b/install", "-DCMAKE_BUILD_TYPE=Release",
          "-DPYTHON_TARGET_VERSION=3.13", "-DXMS_VERSION=99.99.99",
          "-DCMAKE_TOOLCHAIN_FILE=/w/b/build/generators/conan_toolchain.cmake"]
    ∧ (["-DBUILD_TESTING=True", "-DIS_PYTHON_BUILD=True", "-DXMS_BUILD=False",
          "-DCMAKE_INSTALL_PREFIX=/w/b/install", "-DCMAKE_BUILD_TYPE=Release",
          "-DPYTHON_TARGET_VERSION=3.13", "-DXMS_VERSION=99.99.99",
          "-DCMAKE_TOOLCHAIN_FILE=/w/b/build/generators/conan_toolchain.cmake"].all
        (fun o => !("-DXMS_TEST_PATH=".data.isPrefixOf o.data)) = true) := by
  refine ⟨by decide, ⟨by decide, by decide⟩, by decide, by decide⟩

/-- C8 as amended.  The python-target option is added whenever the binding
option is enabled, and in that case no test-path option is ever added; only
when binding is *not* enabled and testing is enabled is the test-fixtures
path option added (the two derivations are exclusive `elif` branches, binding
taking precedence), where a missing fixtures path is fatal unless the
allow-missing flag downgrades it to a skipped option. -/
theorem get_cmake_options_branches (fs : FileSystem) (args : BuildArgs)
    (pybindStr testingStr tf : String)
    (hpy : parseBoolOption
        (some ((dlookup (parseProfileOptionsMap fs args.profile) "pybind").getD "False")) true
      = pybindStr)
    (hts : parseBoolOption
        (some ((dlookup (parseProfileOptionsMap fs args.profile) "testing").getD "False")) true
      = testingStr)
    (htf : pyTruthyGetD args.test_files "./test_files" = tf) :
    (pybindStr ≠ "False" →
      ∃ l, getCmakeOptions fs args = Except.ok l
        ∧ ("-DPYTHON_TARGET_VERSION=" ++ pyTruthyGetD args.python_version "3.13") ∈ l
        ∧ ∀ o ∈ l, ("-DXMS_TEST_PATH=".data.isPrefixOf o.data) = false)
    ∧ (pybindStr = "False" → testingStr ≠ "False" → tf ≠ "NONE" → isDir fs tf = true →
        ∃ l, getCmakeOptions fs args = Except.ok l
          ∧ ("-DXMS_TEST_PATH=" ++ absPathFS fs tf) ∈ l)
    ∧ (pybindStr = "False" → testingStr ≠ "False" → tf ≠ "NONE" → isDir fs tf = false →
        args.allow_missing_test_files = false →
        getCmakeOptions fs args = Except.error ("Test files path does not exist: " ++ tf))
    ∧ (pybindStr = "False" → testingStr ≠ "False" → tf ≠ "NONE" → isDir fs tf = false →
        args.allow_missing_test_files = true →
        ∃ l, getCmakeOptions fs args = Except.ok l
          ∧ ∀ o ∈ l, ("-DXMS_TEST_PATH=".data.isPrefixOf o.data) = false) := by
  have htfe : tf ≠ "" := htf ▸ pyTruthyGetD_ne_empty args.test_files
  have htfeb : (tf == "") = false := beq_eq_false_iff_ne.mpr htfe
  refine ⟨?_, ?_, ?_, ?_⟩
  · intro hpb
    simp only [getCmakeOptions, hpy, hts, htf]
    rw [if_pos hpb]
    refine ⟨_, rfl, ?_, ?_⟩
    · exact List.mem_append.mpr (Or.inl (List.mem_append.mpr (Or.inr (List.mem_cons_self _ _))))
    · refine List.forall_mem_append.mpr ⟨List.forall_mem_append.mpr ⟨?_, ?_⟩, ?_⟩
      · simp only [List.forall_mem_cons]
        refine ⟨?_, ?_, ?_, ?_, ?_, ?_⟩
        · exact no_test_path_element _ _ (by decide) (by decide)
        · exact no_test_path_element _ _ (by decide) (by decide)
        · exact no_test_path_element _ _ (by decide) (by decide)
        · exact no_test_path_element _ _ (by decide) (by decide)
        · exact no_test_path_element _ _ (by decide) (by decide)
        · exact fun x hx => absurd hx (List.not_mem_nil x)
      · simp only [List.forall_mem_cons]
        refine ⟨?_, ?_⟩
        · exact no_test_path_element _ _ (by decide) (by decide)
        · exact fun x hx => absurd hx (List.not_mem_nil x)
      · simp only [List.forall_mem_cons]
        refine ⟨?_, ?_, ?_⟩
        · exact no_test_path_element _ _ (by decide) (by decide)
        · exact no_test_path_element _ _ (by decide) (by decide)
        · exact fun x hx => absurd hx (List.not_mem_nil x)
  · intro hpb hts2 htfN hdir
    have htfNb : (tf == "NONE") = false := beq_eq_false_iff_ne.mpr htfN
    simp only [getCmakeOptions, hpy, hts, htf]
    rw [if_neg (fun hne => hne hpb), if_pos hts2]
    have hc1 : (!(isDir fs tf) && !(tf == "NONE" || tf == "")) = false := by
      rw [hdir]
      rfl
    rw [hc1]
    have hc2 : (!(tf == "NONE" || tf == "")) = true := by
      rw [htfNb, htfeb]
      rfl
    simp only [Bool.false_eq_true, if_false]
    rw [if_pos hc2]
    refine ⟨_, rfl, ?_⟩
    exact List.mem_append.mpr (Or.inl (List.mem_append.mpr (Or.inr (List.mem_cons_self _ _))))
  · intro hpb hts2 htfN hdir hallow
    have htfNb : (tf == "NONE") = false := beq_eq_false_iff_ne.mpr htfN
    simp only [getCmakeOptions, hpy, hts, htf]
    rw [if_neg (fun hne => hne hpb), if_pos hts2]
    have hc1 : (!(isDir fs tf) && !(tf == "NONE" || tf == "")) = true := by
      rw [hdir, htfNb, htfeb]
      rfl
    rw [hc1]
    have hc3 : (!args.allow_missing_test_files) = true := by
      rw [hallow]
      rfl
    simp only [if_true]
    rw [if_pos hc3]
  · intro hpb hts2 htfN hdir hallow
    have htfNb : (tf == "NONE") = false := beq_eq_false_iff_ne.mpr htfN
    simp only [getCmakeOptions, hpy, hts, htf]
    rw [if_neg (fun hne => hne hpb), if_pos hts2]
    have hc1 : (!(isDir fs tf) && !(tf == "NONE" || tf == "")) = true := by
      rw [hdir, htfNb, htfeb]
      rfl
    rw [hc1]
    have hc3 : (!args.allow_missing_test_files) = false := by
      rw [hallow]
      rfl
    simp only [if_true]
    rw [hc3]
    simp only [Bool.false_eq_true, if_false]
    refine ⟨_, rfl, ?_⟩
    refine List.forall_mem_append.mpr ⟨List.forall_mem_append.mpr ⟨?_, ?_⟩, ?_⟩
    · simp only [List.forall_mem_cons]
      refine ⟨?_, ?_, ?_, ?_, ?_, ?_⟩
      · exact no_test_path_element _ _ (by decide) (by decide)
      · exact no_test_path_element _ _ (by decide) (by decide)
      · exact no_test_path_element _ _ (by decide) (by decide)
      · exact no_test_path_element _ _ (by decide) (by decide)
      · exact no_test_path_element _ _ (by decide) (by decide)
      · exact fun x hx => absurd hx (List.not_mem_nil x)
    · exact fun x hx => absurd hx (List.not_mem_nil x)
    · simp only [List.forall_mem_cons]
      refine ⟨?_, ?_, ?_⟩
      · exact no_test_path_element _ _ (by decide) (by decide)
      · exact no_test_path_element _ _ (by decide) (by decide)
      · exact fun x hx => absurd hx (List.not_mem_nil x)

/-- Witness for the amended C8: a testing-only profile with an existing
test-files directory takes the test-path branch. -/
theorem get_cmake_options_branches_witness :
    (parseBoolOption
        (some ((dlookup (parseProfileOptionsMap fsCmake testingOnlyArgs.profile) "pybind").getD
          "False")) true = "False")
    ∧ (∃ l, getCmakeOptions fsCmake testingOnlyArgs = Except.ok l
        ∧ ("-DXMS_TEST_PATH=" ++ absPathFS fsCmake "/w/tf") ∈ l) := by
  refine ⟨by decide, ?_⟩
  exact (get_cmake_options_branches fsCmake testingOnlyArgs "False" "True" "/w/tf"
    (by decide) (by decide) (by decide)).2.1 (by decide) (by decide) (by decide) (by decide)

/-- C9 (code side).  The source `render_template_with_toml` has no dry-run
parameter of any kind: under any rendering engine whose substitution maps the
test template to its expected expansion, the function unconditionally writes
the output file `sample.txt` with content `version=1.2.3\n` — there exists no
argument that makes it render without writing.  (The repository's own test
suite calls the function with `dry_run=True`, which the source signature
rejects.) -/
theorem render_template_always_writes (render : List (String × String) → String → String)
    (tomlData : List (String × String))
    (hrender : ∀ d, dlookup d "version" = some "1.2.3" →
      render d "version=\x7b\x7b version \x7d\x7d\n" = "version=1.2.3\n") :
    renderTemplateWithToml true true render tomlData "1.2.3"
      [("sample.txt.jinja", "version=\x7b\x7b version \x7d\x7d\n")]
      = Except.ok [("sample.txt", "version=1.2.3\n")] := by
  have hsingle : dlookup [("version", "1.2.3")] "version" = some "1.2.3" := by decide
  have htfnone : dlookup [("testing_framework", "cxxtest")] "version" = none := by decide
  have hv0 : dlookup (tomlData ++ [("version", "1.2.3")]) "version" = some "1.2.3" := by
    rw [dlookup_append, hsingle]
    rfl
  have hDATA : dlookup (if (dlookup (tomlData ++ [("version", "1.2.3")])
        "testing_framework").isSome then tomlData ++ [("version", "1.2.3")]
      else (tomlData ++ [("version", "1.2.3")]) ++ [("testing_framework", "cxxtest")])
      "version" = some "1.2.3" := by
    split
    · exact hv0
    · rw [dlookup_append, htfnone]
      exact hv0
  simp only [renderTemplateWithToml, Bool.not_true, Bool.false_eq_true, if_false,
    List.isEmpty_cons, List.map_cons, List.map_nil]
  rw [hrender _ hDATA]
  have h1 : pathStem "sample.txt.jinja" = "sample.txt" := by decide
  have h2 : writeTextLf "version=1.2.3\n" = "version=1.2.3\n" := by decide
  rw [h1, h2]

/-- Witness for C9's code-side theorem: a concrete substitution engine. -/
theorem render_template_always_writes_witness :
    renderTemplateWithToml true true (fun _ _ => "version=1.2.3\n") [] "1.2.3"
      [("sample.txt.jinja", "version=\x7b\x7b version \x7d\x7d\n")]
      = Except.ok [("sample.txt", "version=1.2.3\n")] :=
  render_template_always_writes (fun _ _ => "version=1.2.3\n") [] (fun _ _ => rfl)

lemma dropWhile_append_singleton (p : Char → Bool) (c : Char) (hp : p c = false) :
    ∀ xs : List Char, (xs ++ [c]).dropWhile p = xs.dropWhile p ++ [c] := by
  intro xs
  induction xs with
  | nil => simp [List.dropWhile, hp]
  | cons a l ih =>
    by_cases ha : p a = true
    · simp [List.dropWhile, ha, ih]
    · simp only [Bool.not_eq_true] at ha
      simp [List.dropWhile, ha]

lemma pyTrimL_cons (c : Char) (rest : List Char) (hsp : pyIsSpace c = false) :
    pyTrimL (c :: rest) = c :: (trimLeftL rest.reverse).reverse := by
  rw [pyTrimL]
  rw [show trimLeftL (c :: rest) = c :: rest by simp [trimLeftL, List.dropWhile, hsp]]
  rw [show (c :: rest).reverse = rest.reverse ++ [c] by simp]
  rw [show trimLeftL (rest.reverse ++ [c]) = trimLeftL rest.reverse ++ [c] from
    dropWhile_append_singleton pyIsSpace c hsp rest.reverse]
  simp

lemma inertLine_of_head (s : String) (c : Char) (rest : List Char)
    (hdata : s.data = c :: rest)
    (hsp : pyIsSpace c = false) (hi : pyLowerChar c ≠ 'i') (hb : c ≠ '[') :
    inertLine s = true := by
  have hstrip : (pyStrip s).data = c :: (trimLeftL rest.reverse).reverse := by
    rw [pyStrip]
    show pyTrimL s.data = _
    rw [hdata, pyTrimL_cons c rest hsp]
  rw [inertLine, Bool.and_eq_true]
  constructor
  · rw [Bool.not_eq_true']
    rw [isIncludeLine]
    rw [Bool.and_eq_false_iff]
    refine Or.inl ?_
    rw [pyLower]
    show List.isPrefixOf _ ((pyStrip s).data.map pyLowerChar) = false
    rw [hstrip]
    rw [show ("include(".data) = 'i' :: "nclude(".data from rfl]
    rw [List.map_cons, List.isPrefixOf, Bool.and_eq_false_iff]
    refine Or.inl ?_
    cases hcc : 'i' == pyLowerChar c
    · rfl
    · exact absurd (beq_iff_eq.mp hcc).symm hi
  · rw [Bool.not_eq_true']
    rw [isSectionLine, Bool.and_eq_false_iff]
    refine Or.inl ?_
    rw [hstrip]
    show (some c == some '[') = false
    cases hcc : some c == some '['
    · rfl
    · exact absurd (Option.some.inj (beq_iff_eq.mp hcc)) hb

lemma inert_kv_line (k v : String) (c : Char) (rest : List Char) (hk : k.data = c :: rest)
    (hsp : pyIsSpace c = false) (hi : pyLowerChar c ≠ 'i') (hb : c ≠ '[') :
    inertLine (k ++ "=" ++ v) = true := by
  refine inertLine_of_head _ c ((rest ++ ['=']) ++ v.data) ?_ hsp hi hb
  rw [String.data_append (k ++ "=") v, String.data_append k "=", hk]
  simp

lemma foldl_inert_lines (recur : String → List String → (List (String × String) × List String))
    (dir : String) :
    ∀ (lines : List String) (st : ParseState),
      (∀ l ∈ lines, inertLine l = true) → st.currentSection ≠ some "options" →
      lines.foldl (parseLineStep recur dir) st = st := by
  intro lines
  induction lines with
  | nil => intro st _ _; rfl
  | cons raw rest ih =>
    intro st h hsec
    rw [List.foldl_cons, step_inert recur dir st raw (h raw (List.mem_cons_self _ _)) hsec]
    exact ih st (fun l hl => h l (List.mem_cons_of_mem _ hl)) hsec

lemma step_section_line (recur : String → List String → (List (String × String) × List String))
    (dir : String) (st : ParseState) (raw : String)
    (hblank : ((pyStrip raw).data.isEmpty || (pyStrip raw).data.head? == some '#') = false)
    (hni : isIncludeLine (pyStrip raw) = false)
    (hs : isSectionLine (pyStrip raw) = true) :
    parseLineStep recur dir st raw = { st with currentSection := some (sectionName (pyStrip raw)) } := by
  simp [parseLineStep, hblank, hni, hs]

lemma step_option_line (recur : String → List String → (List (String × String) × List String))
    (dir : String) (st : ParseState) (raw : String) (kl vl : List Char)
    (hblank : ((pyStrip raw).data.isEmpty || (pyStrip raw).data.head? == some '#') = false)
    (hni : isIncludeLine (pyStrip raw) = false)
    (hs : isSectionLine (pyStrip raw) = false)
    (hsec : st.currentSection = some "options")
    (hsplit : splitFirstEq (pyStrip raw).data = some (kl, vl))
    (hscoped : isScopedKey (stripScopeMarker (pyStrip ⟨kl⟩)) = false) :
    parseLineStep recur dir st raw =
      { st with options := st.options ++ [(stripScopeMarker (pyStrip ⟨kl⟩), pyStrip ⟨vl⟩)] } := by
  have hbne : (st.currentSection != some "options") = false := by
    rw [hsec]
    simp
  simp [parseLineStep, hblank, hni, hs, hbne, hsplit, hscoped]

lemma parseProfileOptions_of_file (fs : FileSystem) (path : String) (visited : List String)
    (lines : List String)
    (hfile : lookupFile fs (absPathFS fs path) = some lines)
    (hnv : absPathFS fs path ∉ visited) :
    (parseProfile fs path visited).1 =
      (lines.foldl (parseLineStep (fun p v => parseProfile fs p v) (dirNameFS (absPathFS fs path)))
        ⟨none, [], absPathFS fs path :: visited⟩).options := by
  rw [parseProfile_of_file fs path visited lines hfile hnv]

lemma pyBoolStr_cases (b : Bool) : pyBoolStr b = "True" ∨ pyBoolStr b = "False" := by
  cases b
  · right; rfl
  · left; rfl

lemma foldl_option_lines (recur : String → List String → (List (String × String) × List String))
    (dir : String) (vis : List String) (w tb tt : String)
    (hw : w = "builtin" ∨ w = "typedef")
    (htb : tb = "True" ∨ tb = "False")
    (htt : tt = "True" ∨ tt = "False") :
    List.foldl (parseLineStep recur dir) ⟨some "options", [], vis⟩
        ["&:wchar_t=" ++ w, "&:pybind=" ++ tb, "&:testing=" ++ tt]
      = ⟨some "options", [("wchar_t", w), ("pybind", tb), ("testing", tt)], vis⟩ := by
  rcases hw with rfl | rfl
  · rcases htb with rfl | rfl
    · rcases htt with rfl | rfl
      · rw [List.foldl_cons,
          step_option_line _ _ _ _ "&:wchar_t".data "builtin".data (by decide) (by decide) (by decide)
            rfl (by decide) (by decide)]
        rw [List.foldl_cons,
          step_option_line _ _ _ _ "&:pybind".data "True".data (by decide) (by decide) (by decide)
            rfl (by decide) (by decide)]
        rw [List.foldl_cons,
          step_option_line _ _ _ _ "&:testing".data "True".data (by decide) (by decide) (by decide)
            rfl (by decide) (by decide), List.foldl_nil]
        rw [show stripScopeMarker (pyStrip ⟨"&:wchar_t".data⟩) = "wchar_t" from by decide,
          show stripScopeMarker (pyStrip ⟨"&:pybind".data⟩) = "pybind" from by decide,
          show stripScopeMarker (pyStrip ⟨"&:testing".data⟩) = "testing" from by decide,
          show pyStrip ⟨"builtin".data⟩ = "builtin" from by decide,
          show pyStrip ⟨"True".data⟩ = "True" from by decide]
        rfl
      · rw [List.foldl_cons,
          step_option_line _ _ _ _ "&:wchar_t".data "builtin".data (by decide) (by decide) (by decide)
            rfl (by decide) (by decide)]
        rw [List.foldl_cons,
          step_option_line _ _ _ _ "&:pybind".data "True".data (by decide) (by decide) (by decide)
            rfl (by decide) (by decide)]
        rw [List.foldl_cons,
          step_option_line _ _ _ _ "&:testing".data "False".data (by decide) (by decide) (by decide)
            rfl (by decide) (by decide), List.foldl_nil]
        rw [show stripScopeMarker (pyStrip ⟨"&:wchar_t".data⟩) = "wchar_t" from by decide,
          show stripScopeMarker (pyStrip ⟨"&:pybind".data⟩) = "pybind" from by decide,
          show stripScopeMarker (pyStrip ⟨"&:testing".data⟩) = "testing" from by decide,
          show pyStrip ⟨"builtin".data⟩ = "builtin" from by decide,
          show pyStrip ⟨"True".data⟩ = "True" from by decide,
          show pyStrip ⟨"False".data⟩ = "False" from by decide]
        rfl
    · rcases htt with rfl | rfl
      · rw [List.foldl_cons,
          step_option_line _ _ _ _ "&:wchar_t".data "builtin".data (by decide) (by decide) (by decide)
            rfl (by decide) (by decide)]
        rw [List.foldl_cons,
          step_option_line _ _ _ _ "&:pybind".data "False".data (by decide) (by decide) (by decide)
            rfl (by decide) (by decide)]
        rw [List.foldl_cons,
          step_option_line _ _ _ _ "&:testing".data "True".data (by decide) (by decide) (by decide)
            rfl (by decide) (by decide), List.foldl_nil]
        rw [show stripScopeMarker (pyStrip ⟨"&:wchar_t".data⟩) = "wchar_t" from by decide,
          show stripScopeMarker (pyStrip ⟨"&:pybind".data⟩) = "pybind" from by decide,
          show stripScopeMarker (pyStrip ⟨"&:testing".data⟩) = "testing" from by decide,
          show pyStrip ⟨"builtin".data⟩ = "builtin" from by decide,
          show pyStrip ⟨"False".data⟩ = "False" from by decide,
          show pyStrip ⟨"True".data⟩ = "True" from by decide]
        rfl
      · rw [List.foldl_cons,
          step_option_line _ _ _ _ "&:wchar_t".data "builtin".data (by decide) (by decide) (by decide)
            rfl (by decide) (by decide)]
        rw [List.foldl_cons,
          step_option_line _ _ _ _ "&:pybind".data "False".data (by decide) (by decide) (by decide)
            rfl (by decide) (by decide)]
        rw [List.foldl_cons,
          step_option_line _ _ _ _ "&:testing".data "False".data (by decide) (by decide) (by decide)
            rfl (by decide) (by decide), List.foldl_nil]
        rw [show stripScopeMarker (pyStrip ⟨"&:wchar_t".data⟩) = "wchar_t" from by decide,
          show stripScopeMarker (pyStrip ⟨"&:pybind".data⟩) = "pybind" from by decide,
          show stripScopeMarker (pyStrip ⟨"&:testing".data⟩) = "testing" from by decide,
          show pyStrip ⟨"builtin".data⟩ = "builtin" from by decide,
          show pyStrip ⟨"False".data⟩ = "False" from by decide]
        rfl
  · rcases htb with rfl | rfl
    · rcases htt with rfl | rfl
      · rw [List.foldl_cons,
          step_option_line _ _ _ _ "&:wchar_t".data "typedef".data (by decide) (by decide) (by decide)
            rfl (by decide) (by decide)]
        rw [List.foldl_cons,
          step_option_line _ _ _ _ "&:pybind".data "True".data (by decide) (by decide) (by decide)
            rfl (by decide) (by decide)]
        rw [List.foldl_cons,
          step_option_line _ _ _ _ "&:testing".data "True".data (by decide) (by decide) (by decide)
            rfl (by decide) (by decide), List.foldl_nil]
        rw [show stripScopeMarker (pyStrip ⟨"&:wchar_t".data⟩) = "wchar_t" from by decide,
          show stripScopeMarker (pyStrip ⟨"&:pybind".data⟩) = "pybind" from by decide,
          show stripScopeMarker (pyStrip ⟨"&:testing".data⟩) = "testing" from by decide,
          show pyStrip ⟨"typedef".data⟩ = "typedef" from by decide,
          show pyStrip ⟨"True".data⟩ = "True" from by decide]
        rfl
      · rw [List.foldl_cons,
          step_option_line _ _ _ _ "&:wchar_t".data "typedef".data (by decide) (by decide) (by decide)
            rfl (by decide) (by decide)]
        rw [List.foldl_cons,
          step_option_line _ _ _ _ "&:pybind".data "True".data (by decide) (by decide) (by decide)
            rfl (by decide) (by decide)]
        rw [List.foldl_cons,
          step_option_line _ _ _ _ "&:testing".data "False".data (by decide) (by decide) (by decide)
            rfl (by decide) (by decide), List.foldl_nil]
        rw [show stripScopeMarker (pyStrip ⟨"&:wchar_t".data⟩) = "wchar_t" from by decide,
          show stripScopeMarker (pyStrip ⟨"&:pybind".data⟩) = "pybind" from by decide,
          show stripScopeMarker (pyStrip ⟨"&:testing".data⟩) = "testing" from by decide,
          show pyStrip ⟨"typedef".data⟩ = "typedef" from by decide,
          show pyStrip ⟨"True".data⟩ = "True" from by decide,
          show pyStrip ⟨"False".data⟩ = "False" from by decide]
        rfl
    · rcases htt with rfl | rfl
      · rw [List.foldl_cons,
          step_option_line _ _ _ _ "&:wchar_t".data "typedef".data (by decide) (by decide) (by decide)
            rfl (by decide) (by decide)]
        rw [List.foldl_cons,
          step_option_line _ _ _ _ "&:pybind".data "False".data (by decide) (by decide) (by decide)
            rfl (by decide) (by decide)]
        rw [List.foldl_cons,
          step_option_line _ _ _ _ "&:testing".data "True".data (by decide) (by decide) (by decide)
            rfl (by decide) (by decide), List.foldl_nil]
        rw [show stripScopeMarker (pyStrip ⟨"&:wchar_t".data⟩) = "wchar_t" from by decide,
          show stripScopeMarker (pyStrip ⟨"&:pybind".data⟩) = "pybind" from by decide,
          show stripScopeMarker (pyStrip ⟨"&:testing".data⟩) = "testing" from by decide,
          show pyStrip ⟨"typedef".data⟩ = "typedef" from by decide,
          show pyStrip ⟨"False".data⟩ = "False" from by decide,
          show pyStrip ⟨"True".data⟩ = "True" from by decide]
        rfl
      · rw [List.foldl_cons,
          step_option_line _ _ _ _ "&:wchar_t".data "typedef".data (by decide) (by decide) (by decide)
            rfl (by decide) (by decide)]
        rw [List.foldl_cons,
          step_option_line _ _ _ _ "&:pybind".data "False".data (by decide) (by decide) (by decide)
            rfl (by decide) (by decide)]
        rw [List.foldl_cons,
          step_option_line _ _ _ _ "&:testing".data "False".data (by decide) (by decide) (by decide)
            rfl (by decide) (by decide), List.foldl_nil]
        rw [show stripScopeMarker (pyStrip ⟨"&:wchar_t".data⟩) = "wchar_t" from by decide,
          show stripScopeMarker (pyStrip ⟨"&:pybind".data⟩) = "pybind" from by decide,
          show stripScopeMarker (pyStrip ⟨"&:testing".data⟩) = "testing" from by decide,
          show pyStrip ⟨"typedef".data⟩ = "typedef" from by decide,
          show pyStrip ⟨"False".data⟩ = "False" from by decide]
        rfl

lemma roundtrip_core (settings : List (String × String)) (w : String) (pb tst : Bool)
    (benv : List (String × Option String)) (path : String)
    (hpath : isAbsPath path = true)
    (hsett : ∀ kv ∈ settings, inertLine (kv.1 ++ "=" ++ kv.2) = true)
    (hbenv : ∀ kv ∈ benv, inertLine (kv.1 ++ "=" ++ renderEnvValue kv.2) = true)
    (hw : w = "builtin" ∨ w = "typedef") :
    parseProfileOptionsMap
        (mkProfileFs path (createBuildProfileLines ⟨settings, w, pb, tst, benv⟩)) path
      = [("wchar_t", w), ("pybind", pyBoolStr pb), ("testing", pyBoolStr tst)] := by
  have habsfs : absPathFS (mkProfileFs path (createBuildProfileLines ⟨settings, w, pb, tst, benv⟩))
      path = path := by
    simp [absPathFS, hpath]
  have hfile : lookupFile (mkProfileFs path (createBuildProfileLines ⟨settings, w, pb, tst, benv⟩))
      (absPathFS (mkProfileFs path (createBuildProfileLines ⟨settings, w, pb, tst, benv⟩)) path)
      = some (createBuildProfileLines ⟨settings, w, pb, tst, benv⟩) := by
    rw [habsfs]
    simp [lookupFile, mkProfileFs, List.lookup]
  have hsmap : ∀ l ∈ settings.map (fun kv => kv.1 ++ "=" ++ kv.2), inertLine l = true := by
    intro l hl
    obtain ⟨kv, hkv, rfl⟩ := List.mem_map.mp hl
    exact hsett kv hkv
  have hbmap : ∀ l ∈ benv.map (fun kv => kv.1 ++ "=" ++ renderEnvValue kv.2),
      inertLine l = true := by
    intro l hl
    obtain ⟨kv, hkv, rfl⟩ := List.mem_map.mp hl
    exact hbenv kv hkv
  have hdr1 : ∀ recur : String → List String → (List (String × String) × List String),
      List.foldl (parseLineStep recur (dirNameFS path)) ⟨none, [], [path]⟩ ["[settings]"]
        = ⟨some "settings", [], [path]⟩ := by
    intro recur
    rw [List.foldl_cons, List.foldl_nil,
      step_section_line _ _ _ "[settings]" (by decide) (by decide) (by decide)]
    rw [show sectionName (pyStrip "[settings]") = "settings" from by decide]
  have hseg2 : ∀ recur : String → List String → (List (String × String) × List String),
      List.foldl (parseLineStep recur (dirNameFS path)) ⟨some "settings", [], [path]⟩
        (settings.map (fun kv => kv.1 ++ "=" ++ kv.2)) = ⟨some "settings", [], [path]⟩ := by
    intro recur
    exact foldl_inert_lines recur (dirNameFS path) _ _ hsmap
      (by intro hcc; exact absurd (Option.some.inj hcc) (by decide))
  have hdr2 : ∀ recur : String → List String → (List (String × String) × List String),
      List.foldl (parseLineStep recur (dirNameFS path)) ⟨some "settings", [], [path]⟩
        ["", "[options]"] = ⟨some "options", [], [path]⟩ := by
    intro recur
    rw [List.foldl_cons, step_blank _ _ _ "" (by decide), List.foldl_cons,
      step_section_line _ _ _ "[options]" (by decide) (by decide) (by decide), List.foldl_nil]
    rw [show sectionName (pyStrip "[options]") = "options" from by decide]
  have hdr4 : ∀ recur : String → List String → (List (String × String) × List String),
      List.foldl (parseLineStep recur (dirNameFS path))
        ⟨some "options", [("wchar_t", w), ("pybind", pyBoolStr pb), ("testing", pyBoolStr tst)],
          [path]⟩
        ["", "[buildenv]"]
        = ⟨some "buildenv",
            [("wchar_t", w), ("pybind", pyBoolStr pb), ("testing", pyBoolStr tst)], [path]⟩ := by
    intro recur
    rw [List.foldl_cons, step_blank _ _ _ "" (by decide), List.foldl_cons,
      step_section_line _ _ _ "[buildenv]" (by decide) (by decide) (by decide), List.foldl_nil]
    rw [show sectionName (pyStrip "[buildenv]") = "buildenv" from by decide]
  have hseg6 : ∀ recur : String → List String → (List (String × String) × List String),
      List.foldl (parseLineStep recur (dirNameFS path))
        ⟨some "buildenv",
          [("wchar_t", w), ("pybind", pyBoolStr pb), ("testing", pyBoolStr tst)], [path]⟩
        (benv.map (fun kv => kv.1 ++ "=" ++ renderEnvValue kv.2))
        = ⟨some "buildenv",
            [("wchar_t", w), ("pybind", pyBoolStr pb), ("testing", pyBoolStr tst)], [path]⟩ := by
    intro recur
    exact foldl_inert_lines recur (dirNameFS path) _ _ hbmap
      (by intro hcc; exact absurd (Option.some.inj hcc) (by decide))
  show (parseProfile (mkProfileFs path (createBuildProfileLines ⟨settings, w, pb, tst, benv⟩))
    path []).1 = _
  rw [parseProfileOptions_of_file _ _ _ _ hfile (List.not_mem_nil _), habsfs]
  simp only [createBuildProfileLines]
  rw [List.foldl_append, List.foldl_append, List.foldl_append, List.foldl_append,
    List.foldl_append]
  rw [hdr1, hseg2, hdr2]
  rw [foldl_option_lines _ (dirNameFS path) [path] w (pyBoolStr pb) (pyBoolStr tst) hw
    (pyBoolStr_cases pb) (pyBoolStr_cases tst)]
  rw [hdr4, hseg6]

lemma mem_generate_facts {axes : List (String × List String)} {env : String → Option String}
    {c : BuildConfig} (hc : c ∈ packagerGenerateConfigurations axes env) :
    c.settings ∈ baseCombinations axes ∧ c.buildenv = mkBuildenv env
    ∧ (c.wchar_t = "builtin" ∨ c.wchar_t = "typedef") := by
  simp only [packagerGenerateConfigurations, List.mem_append] at hc
  rcases hc with ((h | h) | h) | h
  · obtain ⟨hpb, ht, hwc, hbe, hs⟩ := mem_baseConfigs_fields h
    exact ⟨hs, hbe, Or.inl hwc⟩
  · simp only [List.mem_map] at h
    obtain ⟨c', hc', rfl⟩ := h
    obtain ⟨hpb, ht, hwc, hbe, hs⟩ := mem_baseConfigs_fields (List.mem_filter.mp hc').1
    exact ⟨hs, hbe, Or.inr rfl⟩
  · simp only [List.mem_map] at h
    obtain ⟨c', hc', rfl⟩ := h
    obtain ⟨hpb, ht, hwc, hbe, hs⟩ := mem_baseConfigs_fields (List.mem_filter.mp hc').1
    exact ⟨hs, hbe, Or.inl hwc⟩
  · simp only [List.mem_map] at h
    obtain ⟨c', hc', rfl⟩ := h
    obtain ⟨hpb, ht, hwc, hbe, hs⟩ := mem_baseConfigs_fields hc'
    exact ⟨hs, hbe, Or.inl hwc⟩

lemma inert_kv_line2 (k v : String)
    (h : (match k.data with
      | [] => false
      | c :: _ => !pyIsSpace c && (!(pyLowerChar c == 'i') && !(c == '['))) = true) :
    inertLine (k ++ "=" ++ v) = true := by
  cases hk : k.data with
  | nil =>
    rw [hk] at h
    simp at h
  | cons c rest =>
    rw [hk] at h
    have h' : (!pyIsSpace c && (!(pyLowerChar c == 'i') && !(c == '['))) = true := h
    rw [Bool.and_eq_true, Bool.and_eq_true, Bool.not_eq_true', Bool.not_eq_true',
      Bool.not_eq_true'] at h'
    obtain ⟨h1, h2, h3⟩ := h'
    exact inert_kv_line k v c rest hk h1 (beq_eq_false_iff_ne.mp h2) (beq_eq_false_iff_ne.mp h3)

lemma settings_inert_of_lookup {platform : String} {axes : List (String × List String)}
    (hplat : packagerConfigurations.lookup platform = some axes) :
    ∀ s ∈ baseCombinations axes, ∀ kv ∈ s, inertLine (kv.1 ++ "=" ++ kv.2) = true := by
  rw [packagerConfigurations, List.lookup] at hplat
  cases hq1 : platform == "windows" <;> rw [hq1] at hplat
  case true =>
    obtain rfl := (Option.some.inj hplat).symm
    decide
  case false =>
    rw [List.lookup] at hplat
    cases hq2 : platform == "linux" <;> rw [hq2] at hplat
    case true =>
      obtain rfl := (Option.some.inj hplat).symm
      decide
    case false =>
      rw [List.lookup] at hplat
      cases hq3 : platform == "darwin" <;> rw [hq3] at hplat
      case true =>
        obtain rfl := (Option.some.inj hplat).symm
        decide
      case false =>
        exact absurd hplat (by simp [List.lookup])

/-- C10.  Round trip between the profile writer and the profile parser: for
every configuration produced by the packager's `generate_configurations` (any
platform family of its table, any process environment), parsing the profile
file written by `create_build_profile` returns exactly the configuration's
option set, each value rendered as Python's `str` renders it, with the
written `&:` markers stripped, and with every settings and buildenv key
absent because only the `[options]` section is parsed.  (The hypothesis on
`env` pins the model to environment values without embedded newlines, where
the written file's line structure matches the line list of the model.) -/
theorem create_profile_parse_roundtrip (platform : String)
    (axes : List (String × List String)) (env : String → Option String)
    (c : BuildConfig) (path : String)
    (hplat : packagerConfigurations.lookup platform = some axes)
    (hc : c ∈ packagerGenerateConfigurations axes env)
    (hpath : isAbsPath path = true)
    (henv : ∀ k s, env k = some s → s.data.contains '\n' = false) :
    parseProfileOptionsMap (mkProfileFs path (createBuildProfileLines c)) path
      = [("wchar_t", c.wchar_t), ("pybind", pyBoolStr c.pybind),
         ("testing", pyBoolStr c.testing)] := by
  obtain ⟨hs, hbe, hw⟩ := mem_generate_facts hc
  have hsett : ∀ kv ∈ c.settings, inertLine (kv.1 ++ "=" ++ kv.2) = true :=
    settings_inert_of_lookup hplat c.settings hs
  have hkeys : ∀ kn ∈ (["XMS_VERSION", "PYTHON_TARGET_VERSION", "CI_COMMIT_TAG",
      "RELEASE_PYTHON", "AQUAPI_USERNAME", "AQUAPI_PASSWORD", "AQUAPI_URL"] : List String),
      (match kn.data with
        | [] => false
        | ch :: _ => !pyIsSpace ch && (!(pyLowerChar ch == 'i') && !(ch == '['))) = true := by
    decide
  have hbenvi : ∀ kv ∈ c.buildenv, inertLine (kv.1 ++ "=" ++ renderEnvValue kv.2) = true := by
    rw [hbe]
    intro kv hkv
    refine inert_kv_line2 kv.1 (renderEnvValue kv.2) (hkeys kv.1 ?_)
    simp only [mkBuildenv, List.mem_cons, List.not_mem_nil, or_false] at hkv
    rcases hkv with rfl | rfl | rfl | rfl | rfl | rfl | rfl <;> simp
  exact roundtrip_core c.settings c.wchar_t c.pybind c.testing c.buildenv path hpath hsett
    hbenvi hw

/-- Witness for C10 at the windows Release/dynamic base configuration under
the empty environment. -/
theorem create_profile_parse_roundtrip_witness :
    (packagerConfigurations.lookup "windows" = some windowsAxes)
    ∧ (roundtripConfig ∈ packagerGenerateConfigurations windowsAxes env0)
    ∧ (isAbsPath "/tmp/temp_profile" = true)
    ∧ parseProfileOptionsMap
        (mkProfileFs "/tmp/temp_profile" (createBuildProfileLines roundtripConfig))
        "/tmp/temp_profile"
      = [("wchar_t", "builtin"), ("pybind", "False"), ("testing", "False")] := by
  refine ⟨by decide, by decide, by decide, ?_⟩
  exact create_profile_parse_roundtrip "windows" windowsAxes env0 roundtripConfig
    "/tmp/temp_profile" (by decide) (by decide) (by decide)
    (fun k s h => by exact absurd h (by simp [env0]))
